import Mathlib

/-!
NUCLEO-F429ZI OLED / RTOS / ISR firmware: button handler and display task.

Shallow embedding of

* `Core/Src/stm32f4xx_it.c` : `HAL_GPIO_EXTI_Callback` (debounced button edges),
* `Core/Src/rtos_tasks.c`   : `OLED_Task_Init`, the loop of `OLED_Display_Task`,
  `DrawBongoCat`, `DrawQRCode`, `DrawInfoScreen`,
* `Core/Inc/rtos_tasks.h`   : `DisplayMode_t` and the configuration constants.

`uint32_t` values are natural numbers, arithmetic on them is reduced modulo `2^32`.
The file-scope and function-scope `static` variables form an explicit `State`; every
call to an external collaborator (UART, kernel queue, u8g2) is recorded as an `Event`
in the order in which the C code issues it.
-/

namespace OledRtos

/-! ## Machine arithmetic -/

/-- Difference `a - b` of two `uint32_t` operands, as C computes it (modulo `2^32`). -/
def sub32 (a b : Nat) : Nat := (a % 2 ^ 32 + 2 ^ 32 - b % 2 ^ 32) % 2 ^ 32

/-! ## `rtos_tasks.h` -/

/-- Enumerator `DISPLAY_MODE_BONGO = 0` of `DisplayMode_t`. -/
def DISPLAY_MODE_BONGO : Nat := 0

/-- Enumerator `DISPLAY_MODE_QRCODE = 1` of `DisplayMode_t`. -/
def DISPLAY_MODE_QRCODE : Nat := 1

/-- Enumerator `DISPLAY_MODE_INFO = 2` of `DisplayMode_t`. -/
def DISPLAY_MODE_INFO : Nat := 2

def OLED_ANIMATION_DELAY_MS : Nat := 200

def OLED_WELCOME_MESSAGE : String := "Hi, NUCLEO-F429ZI!"

def OLED_DISPLAY_MODE_QUEUE_SIZE : Nat := 3

/-! ## Private defines of `rtos_tasks.c` and `stm32f4xx_it.c` -/

def IMAGE_WIDTH : Nat := 64

def IMAGE_HEIGHT : Nat := 64

def BONGO_WIDTH : Nat := 101

def TEXT_OFFSET_Y : Nat := 15

def DEBOUNCE_MS : Nat := 50

/-! ## Data model -/

/-- Pin masks `SW1_Pin` and `SW2_Pin`. They are declared in `main.h`, which is not part of
the sources at hand, so the handler takes them as a parameter. -/
structure Pins where
  SW1_Pin : Nat
  SW2_Pin : Nat
  deriving DecidableEq, Repr

/-- HAL type `GPIO_PinState`. -/
inductive GPIO_PinState where
  | GPIO_PIN_RESET
  | GPIO_PIN_SET
  deriving DecidableEq, Repr

/-- The three image arrays included by `rtos_tasks.c`, identified by name. -/
inductive Bitmap where
  | gImage_img_qrcode
  | gImage_bongo_cat_1
  | gImage_bongo_cat_2
  deriving DecidableEq, Repr

/-- Calls to external collaborators, in program order. The constructor is the name of the
C function called, the arguments are the ones that matter to the caller. -/
inductive Event where
  /-- `HAL_UART_Transmit(&huart3, msg, strlen(msg), 100)`. -/
  | HAL_UART_Transmit (msg : String)
  /-- `osMessageQueuePut(display_mode_queue, &mode, 0, 0)`; `ok` is `status == osOK`. -/
  | osMessageQueuePut (mode : Nat) (ok : Bool)
  /-- `osMessageQueueGet(display_mode_queue, &new_mode, NULL, 200)`; `some m` is `osOK`. -/
  | osMessageQueueGet (result : Option Nat)
  /-- `osMessageQueueNew(3, sizeof(DisplayMode_t), NULL)`; `ok` is `handle != NULL`. -/
  | osMessageQueueNew (capacity : Nat) (ok : Bool)
  /-- `osThreadNew(OLED_Display_Task, NULL, &attr)`; `ok` is `handle != NULL`. -/
  | osThreadNew (ok : Bool)
  | Error_Handler
  | u8g2_ClearBuffer
  | u8g2_SendBuffer
  | u8g2_DrawXBMP (x y w h : Nat) (bitmap : Bitmap)
  | u8g2_DrawStr (x y : Nat) (str : String)
  | u8g2_ClearDisplay
  /-- `u8g2_SetFont(u8g2, u8g2_font_ncenB08_tr)`. -/
  | u8g2_SetFont
  /-- `u8g2_Setup_sh1106_i2c_128x64_noname_f(&u8g2, U8G2_R0, u8x8_byte_stm32_i2c,
  u8x8_stm32_gpio_and_delay)`. -/
  | u8g2_Setup_sh1106_i2c_128x64_noname_f
  | u8g2_SetI2CAddress (address : Nat)
  /-- `u8g2_InitDisplay(&u8g2)`; `acknowledged` says whether the display answered on the
  bus while the init sequence was sent. The call has no result, so its caller is not told. -/
  | u8g2_InitDisplay (acknowledged : Bool)
  | u8g2_SetPowerSave (is_enable : Nat)
  deriving DecidableEq, Repr

/-- The mutable variables of the two translation units:
`last_sw1_time`, `last_sw2_time` (`stm32f4xx_it.c`), `display_mode_queue` (its contents),
`current_display_mode`, the `static last_update` of `OLED_Display_Task` and the
`static frame` of `DrawBongoCat` (`rtos_tasks.c`). -/
structure State where
  last_sw1_time : Nat
  last_sw2_time : Nat
  display_mode_queue : List Nat
  current_display_mode : Nat
  last_update : Nat
  frame : Bool
  deriving DecidableEq, Repr

/-- Values of the static initialisers:
`last_sw1_time = 0`, `last_sw2_time = 0`, `current_display_mode = DISPLAY_MODE_INFO`,
`last_update = 0`, `frame = false`, and a freshly created (empty) queue. -/
def boot : State :=
  { last_sw1_time := 0
    last_sw2_time := 0
    display_mode_queue := []
    current_display_mode := DISPLAY_MODE_INFO
    last_update := 0
    frame := false }

/-! ## The kernel message queue -/

/-- Modelled from the spec: `osMessageQueuePut` with timeout 0 lives in the CMSIS-RTOS
middleware, outside the sources at hand. Section 4.2: bounded FIFO of capacity 3;
"Non-blocking: if full, returns failure immediately". The result is `(status == osOK,
contents afterwards)`. -/
def osMessageQueuePut (q : List Nat) (mode : Nat) : Bool × List Nat :=
  if q.length < OLED_DISPLAY_MODE_QUEUE_SIZE then (true, q ++ [mode]) else (false, q)

/-- Modelled from the spec: `osMessageQueueGet` lives in the CMSIS-RTOS middleware, outside
the sources at hand. Section 4.2: "FIFO - delivered in the order produced"; with nothing
queued the call returns "timed out". The result is `(some m` for `osOK, contents
afterwards)`. -/
def osMessageQueueGet (q : List Nat) : Option Nat × List Nat :=
  match q with
  | [] => (none, [])
  | m :: rest => (some m, rest)

/-! ## `stm32f4xx_it.c` -/

/-- `void HAL_GPIO_EXTI_Callback(uint16_t gpio_pin)`.
`HAL_GPIO_ReadPin` gives the level sampled on a pin and `HAL_GetTick` the tick counter at
the time of the call; the result is the state afterwards and the calls issued. -/
def HAL_GPIO_EXTI_Callback (p : Pins) (HAL_GPIO_ReadPin : Nat → GPIO_PinState)
    (HAL_GetTick : Nat) (gpio_pin : Nat) (s : State) : State × List Event :=
  let current_time := HAL_GetTick
  if gpio_pin = p.SW1_Pin then
    if HAL_GPIO_ReadPin p.SW1_Pin = GPIO_PinState.GPIO_PIN_SET ∧
        sub32 current_time s.last_sw1_time > DEBOUNCE_MS then
      let mode := DISPLAY_MODE_BONGO
      let r := osMessageQueuePut s.display_mode_queue mode
      ({ s with display_mode_queue := r.2, last_sw1_time := current_time },
        [Event.HAL_UART_Transmit "SW1: Show bongo cat screen\r\n",
         Event.osMessageQueuePut mode r.1] ++
        (if r.1 then [] else [Event.HAL_UART_Transmit "SW1: Failed to send mode to queue\r\n"]))
    else (s, [])
  else if gpio_pin = p.SW2_Pin then
    if HAL_GPIO_ReadPin p.SW2_Pin = GPIO_PinState.GPIO_PIN_SET ∧
        sub32 current_time s.last_sw2_time > DEBOUNCE_MS then
      let mode := DISPLAY_MODE_QRCODE
      let r := osMessageQueuePut s.display_mode_queue mode
      ({ s with display_mode_queue := r.2, last_sw2_time := current_time },
        [Event.HAL_UART_Transmit "SW2: Show QR code page\r\n",
         Event.osMessageQueuePut mode r.1] ++
        (if r.1 then [] else [Event.HAL_UART_Transmit "SW2: Failed to send mode to queue\r\n"]))
    else (s, [])
  else
    (s, [Event.HAL_UART_Transmit
          ("Unknown GPIO interrupt (pin=" ++ toString gpio_pin ++ "), ignored!\r\n")])

/-! ## `rtos_tasks.c` -/

/-- `static void DrawBongoCat(u8g2_t *u8g2)`. -/
def DrawBongoCat (s : State) : State × List Event :=
  ({ s with frame := !s.frame },
    [Event.u8g2_DrawXBMP 13 0 BONGO_WIDTH IMAGE_HEIGHT
      (if s.frame then Bitmap.gImage_bongo_cat_1 else Bitmap.gImage_bongo_cat_2)])

/-- `static void DrawQRCode(u8g2_t *u8g2)`. -/
def DrawQRCode (s : State) : State × List Event :=
  (s,
    [Event.u8g2_DrawXBMP 0 0 IMAGE_WIDTH IMAGE_HEIGHT Bitmap.gImage_img_qrcode,
     Event.u8g2_DrawStr 70 TEXT_OFFSET_Y "QRcode",
     Event.u8g2_DrawStr 70 (TEXT_OFFSET_Y + TEXT_OFFSET_Y) "scan can",
     Event.u8g2_DrawStr 70 (TEXT_OFFSET_Y + 2 * TEXT_OFFSET_Y) "link to",
     Event.u8g2_DrawStr 70 (TEXT_OFFSET_Y + 3 * TEXT_OFFSET_Y) "Youtube"])

/-- `static void DrawInfoScreen(u8g2_t *u8g2)`. -/
def DrawInfoScreen (s : State) : State × List Event :=
  (s,
    [Event.u8g2_DrawStr 0 TEXT_OFFSET_Y OLED_WELCOME_MESSAGE,
     Event.u8g2_DrawStr 0 (TEXT_OFFSET_Y + TEXT_OFFSET_Y) "My name is Ted.",
     Event.u8g2_DrawStr 0 (TEXT_OFFSET_Y + 2 * TEXT_OFFSET_Y) "How are you doing?"])

/-- The `switch (current_display_mode)` of `OLED_Display_Task`. -/
def dispatch (s : State) : State × List Event :=
  if s.current_display_mode = DISPLAY_MODE_BONGO then DrawBongoCat s
  else if s.current_display_mode = DISPLAY_MODE_QRCODE then DrawQRCode s
  else DrawInfoScreen s

/-- The block guarded by `current_time - last_update >= OLED_ANIMATION_DELAY_MS` in
`OLED_Display_Task`: clear, dispatch, send, `last_update = current_time`. -/
def redraw (current_time : Nat) (s : State) : State × List Event :=
  let d := dispatch s
  ({ d.1 with last_update := current_time },
    [Event.u8g2_ClearBuffer] ++ d.2 ++ [Event.u8g2_SendBuffer])

/-- One pass through the body of `while (1)` in `OLED_Display_Task`, after
`osMessageQueueGet` has returned: `status = some new_mode` stands for `osOK` with the
received value, `none` for every other status; `current_time` is the value of
`osKernelGetTickCount()`. -/
def OLED_Display_Task_body (status : Option Nat) (current_time : Nat) (s : State) :
    State × List Event :=
  let r : State × List Event :=
    match status with
    | some new_mode => ({ s with current_display_mode := new_mode }, [Event.u8g2_ClearBuffer])
    | none => (s, [])
  if sub32 current_time r.1.last_update ≥ OLED_ANIMATION_DELAY_MS then
    let d := redraw current_time r.1
    (d.1, r.2 ++ d.2)
  else r

/-- One iteration of `while (1)` in `OLED_Display_Task`, the dequeue included. -/
def OLED_Display_Task_iteration (current_time : Nat) (s : State) : State × List Event :=
  let g := osMessageQueueGet s.display_mode_queue
  let r := OLED_Display_Task_body g.1 current_time { s with display_mode_queue := g.2 }
  (r.1, Event.osMessageQueueGet g.1 :: r.2)

/-- Outcome of a start-up routine: it returns to its caller, or the system is halted. -/
inductive Outcome where
  | returned
  | halted
  deriving DecidableEq, Repr

/-- Modelled from the spec: `Error_Handler` is defined in `main.c`, outside the sources at
hand. Section 7: a fatal error "halts the system permanently (busy-loop or equivalent halt
state)"; section 9: "an infinite no-op loop is the source behavior". The call is recorded
and nothing after it is executed. -/
def Error_Handler (before : List Event) : Outcome × List Event :=
  (Outcome.halted, before ++ [Event.Error_Handler])

/-- `void OLED_Task_Init(void)`. `queue_created` and `thread_created` say whether
`osMessageQueueNew` and `osThreadNew` return a non-NULL handle. -/
def OLED_Task_Init (queue_created thread_created : Bool) : Outcome × List Event :=
  let t0 := [Event.osMessageQueueNew OLED_DISPLAY_MODE_QUEUE_SIZE queue_created]
  if queue_created = false then
    Error_Handler (t0 ++ [Event.HAL_UART_Transmit "Failed to create display mode queue\r\n"])
  else
    let t1 := t0 ++ [Event.osThreadNew thread_created]
    if thread_created = false then
      Error_Handler (t1 ++ [Event.HAL_UART_Transmit "Failed to create OLED display task\r\n"])
    else (Outcome.returned, t1)

/-! ## `oled_driver.c` -/

/-- `void OLED_Init(void)`. `transport_ok` says whether the display answers on the I2C bus
while `u8g2_InitDisplay` runs. The function returns `void`. -/
def OLED_Init (transport_ok : Bool) : List Event :=
  [Event.u8g2_Setup_sh1106_i2c_128x64_noname_f,
   Event.u8g2_SetI2CAddress 0x3C,
   Event.u8g2_InitDisplay transport_ok,
   Event.u8g2_SetPowerSave 0]

/-- `u8g2_t* OLED_GetDisplay(void)`: `return &u8g2;`, the address of the file-scope object
`static u8g2_t u8g2`. `none` stands for `NULL`. -/
def OLED_GetDisplay : Option Unit := some ()

/-- The message codes on which `u8x8_byte_stm32_i2c` switches. The numeric values of the
`U8X8_MSG_BYTE_*` macros come from `u8x8.h`; `other` is any code that is none of the five.
`U8X8_MSG_BYTE_SEND` carries the `arg_int` bytes found at `arg_ptr`. -/
inductive U8x8Msg where
  | U8X8_MSG_BYTE_SEND (data : List Nat)
  | U8X8_MSG_BYTE_INIT
  | U8X8_MSG_BYTE_SET_DC
  | U8X8_MSG_BYTE_START_TRANSFER
  | U8X8_MSG_BYTE_END_TRANSFER
  | other (msg : Nat)
  deriving DecidableEq, Repr

/-- The function-scope statics of `u8x8_byte_stm32_i2c`: `static uint8_t buffer[32]` and
`static uint8_t buf_idx`. -/
structure I2cStatics where
  buffer : List Nat
  buf_idx : Nat
  deriving DecidableEq, Repr

/-- What one call of `u8x8_byte_stm32_i2c` does: the statics afterwards, the value
returned, the indices of `buffer` it stored to (in order), and the
`HAL_I2C_Master_Transmit` calls as pairs (`DevAddress`, bytes sent). -/
structure ByteCall where
  statics : I2cStatics
  ret : Nat
  writes : List Nat
  transmitted : List (Nat × List Nat)
  deriving DecidableEq, Repr

/-- The loop `while (arg_int > 0) { buffer[buf_idx++] = *data++; arg_int--; }`. A store at
an index outside `buffer` is recorded in `writes` and leaves the list as it is. -/
def byteSendLoop : List Nat → I2cStatics → List Nat → I2cStatics × List Nat
  | [], st, writes => (st, writes)
  | b :: data, st, writes =>
    byteSendLoop data
      { buffer := st.buffer.set st.buf_idx b, buf_idx := (st.buf_idx + 1) % 256 }
      (writes ++ [st.buf_idx])

/-- `uint8_t u8x8_byte_stm32_i2c(u8x8_t *u8x8, uint8_t msg, uint8_t arg_int, void *arg_ptr)`.
`i2c_address` is `u8x8_GetI2CAddress(u8x8)`. The transmit call sends `buf_idx` bytes
starting at `buffer`. -/
def u8x8_byte_stm32_i2c (i2c_address : Nat) (msg : U8x8Msg) (st : I2cStatics) : ByteCall :=
  match msg with
  | U8x8Msg.U8X8_MSG_BYTE_SEND data =>
    { statics := (byteSendLoop data st []).1, ret := 1,
      writes := (byteSendLoop data st []).2, transmitted := [] }
  | U8x8Msg.U8X8_MSG_BYTE_INIT => { statics := st, ret := 1, writes := [], transmitted := [] }
  | U8x8Msg.U8X8_MSG_BYTE_SET_DC => { statics := st, ret := 1, writes := [], transmitted := [] }
  | U8x8Msg.U8X8_MSG_BYTE_START_TRANSFER =>
    { statics := { st with buf_idx := 0 }, ret := 1, writes := [], transmitted := [] }
  | U8x8Msg.U8X8_MSG_BYTE_END_TRANSFER =>
    { statics := st, ret := 1, writes := [],
      transmitted := [(i2c_address <<< 1, st.buffer.take st.buf_idx)] }
  | U8x8Msg.other _ => { statics := st, ret := 0, writes := [], transmitted := [] }

/-! ## Start of `OLED_Display_Task` -/

/-- Lines 140-152 of `OLED_Display_Task`, from `OLED_Init()` to `u8g2_SetFont`.
`Outcome.returned` means that control reaches `while (1)`. -/
def OLED_Display_Task_prologue (transport_ok : Bool) : Outcome × List Event :=
  let t0 := OLED_Init transport_ok
  match OLED_GetDisplay with
  | none =>
    Error_Handler (t0 ++ [Event.HAL_UART_Transmit "Failed to initialize OLED display\r\n"])
  | some _ =>
    (Outcome.returned,
      t0 ++ [Event.u8g2_ClearBuffer, Event.u8g2_ClearDisplay, Event.u8g2_SendBuffer,
        Event.u8g2_SetFont])

/-! ## Observations on event lists -/

/-- The values handed to `osMessageQueuePut`, in order, whether or not the put succeeded. -/
def putsAttempted (evs : List Event) : List Nat :=
  evs.filterMap fun e =>
    match e with
    | Event.osMessageQueuePut mode _ => some mode
    | _ => none

/-! ## Runs of the handler and of the task, and what is observed of them -/

/-- A pressed button edge: the pin whose interrupt fires and the tick at that moment. -/
structure Edge where
  gpio_pin : Nat
  time : Nat
  deriving DecidableEq, Repr

/-- The handler called for a pressed edge (the level read back is `GPIO_PIN_SET`). -/
def pressed (p : Pins) (e : Edge) (s : State) : State × List Event :=
  HAL_GPIO_EXTI_Callback p (fun _ => GPIO_PinState.GPIO_PIN_SET) e.time e.gpio_pin s

/-- The edge is accepted: the handler attempts a put. -/
def accepts (p : Pins) (e : Edge) (s : State) : Bool :=
  !(putsAttempted (pressed p e s).2).isEmpty

/-- State after the handler has run for each edge of the list, in order. -/
def feed (p : Pins) : List Edge → State → State
  | [], s => s
  | e :: es, s => feed p es (pressed p e s).1

/-- The edges of the list that the handler accepts, in order. -/
def acceptedEdges (p : Pins) : List Edge → State → List Edge
  | [], _ => []
  | e :: es, s => (if accepts p e s then [e] else []) ++ acceptedEdges p es (pressed p e s).1

/-- One step of the system: a call of the button-edge handler (with the level the pins
read back and the value of `HAL_GetTick`), or one iteration of the display-task loop
(with the value of `osKernelGetTickCount`). -/
inductive Step where
  | edge (HAL_GPIO_ReadPin : Nat → GPIO_PinState) (HAL_GetTick : Nat) (gpio_pin : Nat)
  | task (osKernelGetTickCount : Nat)

def step (p : Pins) : Step → State → State × List Event
  | Step.edge readPin tick gpio_pin, s => HAL_GPIO_EXTI_Callback p readPin tick gpio_pin s
  | Step.task tick, s => OLED_Display_Task_iteration tick s

/-- State after a sequence of steps, and all the calls issued, in order. -/
def run (p : Pins) : List Step → State → State × List Event
  | [], s => (s, [])
  | st :: rest, s => ((run p rest (step p st s).1).1, (step p st s).2 ++ (run p rest (step p st s).1).2)

/-- Value returned by the most recent successful dequeue among the calls after `acc`,
or `acc` when there is none. -/
def lastDequeuedFrom (acc : Option Nat) (evs : List Event) : Option Nat :=
  evs.foldl (fun r e =>
    match e with
    | Event.osMessageQueueGet (some m) => some m
    | _ => r) acc

/-- Value returned by the most recent successful dequeue of the trace, if any. -/
def lastDequeued (evs : List Event) : Option Nat := lastDequeuedFrom none evs

/-- The u8g2 calls of a trace that the render loop can issue: clear, draw, send. -/
def displayCommands (evs : List Event) : List Event :=
  evs.filter fun e =>
    match e with
    | Event.u8g2_ClearBuffer => true
    | Event.u8g2_SendBuffer => true
    | Event.u8g2_DrawXBMP _ _ _ _ _ => true
    | Event.u8g2_DrawStr _ _ _ => true
    | _ => false

/-- The calls of one redraw of the Info screen. -/
def infoFrame : List Event :=
  [Event.u8g2_ClearBuffer,
   Event.u8g2_DrawStr 0 15 "Hi, NUCLEO-F429ZI!",
   Event.u8g2_DrawStr 0 30 "My name is Ted.",
   Event.u8g2_DrawStr 0 45 "How are you doing?",
   Event.u8g2_SendBuffer]

/-- The calls of `k` successive redraws of the Info screen. -/
def infoFrames : Nat → List Event
  | 0 => []
  | k + 1 => infoFrame ++ infoFrames k

/-- The results of the `osMessageQueueGet` calls of a trace, in order. -/
def dequeueResults (evs : List Event) : List (Option Nat) :=
  evs.filterMap fun e =>
    match e with
    | Event.osMessageQueueGet r => some r
    | _ => none

/-- The calls of each of the successive redraws made at the given ticks, nothing else
touching the state in between. -/
def redrawFrames : List Nat → State → List (List Event)
  | [], _ => []
  | t :: ts, s => (redraw t s).2 :: redrawFrames ts (redraw t s).1

/-- The calls of one redraw of the QR code screen. -/
def qrFrame : List Event :=
  [Event.u8g2_ClearBuffer,
   Event.u8g2_DrawXBMP 0 0 64 64 Bitmap.gImage_img_qrcode,
   Event.u8g2_DrawStr 70 15 "QRcode",
   Event.u8g2_DrawStr 70 30 "scan can",
   Event.u8g2_DrawStr 70 45 "link to",
   Event.u8g2_DrawStr 70 60 "Youtube",
   Event.u8g2_SendBuffer]

/-- The calls of one redraw of the bongo cat screen when the toggle holds `frame`. -/
def bongoFrame (frame : Bool) : List Event :=
  [Event.u8g2_ClearBuffer,
   Event.u8g2_DrawXBMP 13 0 101 64
     (if frame then Bitmap.gImage_bongo_cat_1 else Bitmap.gImage_bongo_cat_2),
   Event.u8g2_SendBuffer]

/-- The lines handed to `HAL_UART_Transmit`, in order. -/
def uartLines (evs : List Event) : List String :=
  evs.filterMap fun e =>
    match e with
    | Event.HAL_UART_Transmit msg => some msg
    | _ => none

/-- The draw and flush calls of a trace: everything that touches the draw buffer or
sends it to the display. -/
def drawOrFlush (evs : List Event) : List Event :=
  evs.filter fun e =>
    match e with
    | Event.u8g2_ClearBuffer => true
    | Event.u8g2_ClearDisplay => true
    | Event.u8g2_SendBuffer => true
    | Event.u8g2_DrawXBMP _ _ _ _ _ => true
    | Event.u8g2_DrawStr _ _ _ => true
    | _ => false

/-- Everything a sequence of calls of `u8x8_byte_stm32_i2c` does, in order. -/
structure ByteRun where
  statics : I2cStatics
  rets : List Nat
  writes : List Nat
  transmitted : List (Nat × List Nat)
  deriving DecidableEq, Repr

/-- The callback called once for each message of the list, in order. -/
def deliver (i2c_address : Nat) : List U8x8Msg → I2cStatics → ByteRun
  | [], st => { statics := st, rets := [], writes := [], transmitted := [] }
  | m :: ms, st =>
    { statics := (deliver i2c_address ms (u8x8_byte_stm32_i2c i2c_address m st).statics).statics
      rets := (u8x8_byte_stm32_i2c i2c_address m st).ret ::
        (deliver i2c_address ms (u8x8_byte_stm32_i2c i2c_address m st).statics).rets
      writes := (u8x8_byte_stm32_i2c i2c_address m st).writes ++
        (deliver i2c_address ms (u8x8_byte_stm32_i2c i2c_address m st).statics).writes
      transmitted := (u8x8_byte_stm32_i2c i2c_address m st).transmitted ++
        (deliver i2c_address ms (u8x8_byte_stm32_i2c i2c_address m st).statics).transmitted }

/-! ## Button-edge handler -/

/-- C1. For a call of `HAL_GPIO_EXTI_Callback` with pin SW1 (resp. SW2), every sampled
level, every tick `now` and every stored last-accepted time: the handler attempts an
enqueue iff the level read is `GPIO_PIN_SET` and the 32-bit difference `now - last`
exceeds 50, and then it attempts exactly one, with value Bongo for SW1 and QRCode for
SW2. -/
theorem exti_callback_enqueue_iff (p : Pins) (hp : p.SW1_Pin ≠ p.SW2_Pin)
    (readPin : Nat → GPIO_PinState) (now : Nat) (s : State) :
    putsAttempted (HAL_GPIO_EXTI_Callback p readPin now p.SW1_Pin s).2 =
        (if readPin p.SW1_Pin = GPIO_PinState.GPIO_PIN_SET ∧ 50 < sub32 now s.last_sw1_time
          then [DISPLAY_MODE_BONGO] else []) ∧
    putsAttempted (HAL_GPIO_EXTI_Callback p readPin now p.SW2_Pin s).2 =
        (if readPin p.SW2_Pin = GPIO_PinState.GPIO_PIN_SET ∧ 50 < sub32 now s.last_sw2_time
          then [DISPLAY_MODE_QRCODE] else []) := by
  constructor
  · by_cases h : readPin p.SW1_Pin = GPIO_PinState.GPIO_PIN_SET ∧ 50 < sub32 now s.last_sw1_time
    · by_cases hq : (osMessageQueuePut s.display_mode_queue DISPLAY_MODE_BONGO).1 = true <;>
        simp [HAL_GPIO_EXTI_Callback, putsAttempted, DEBOUNCE_MS, h, hq]
    · simp [HAL_GPIO_EXTI_Callback, putsAttempted, DEBOUNCE_MS, h]
  · have hp2 : ¬ p.SW2_Pin = p.SW1_Pin := fun h => hp h.symm
    by_cases h : readPin p.SW2_Pin = GPIO_PinState.GPIO_PIN_SET ∧ 50 < sub32 now s.last_sw2_time
    · by_cases hq : (osMessageQueuePut s.display_mode_queue DISPLAY_MODE_QRCODE).1 = true <;>
        simp [HAL_GPIO_EXTI_Callback, putsAttempted, DEBOUNCE_MS, h, hq, hp2]
    · simp [HAL_GPIO_EXTI_Callback, putsAttempted, DEBOUNCE_MS, h, hp2]

/-- Instance of C1 on a board with `SW1_Pin = 8`, `SW2_Pin = 16`, both buttons pressed,
tick 100, from the boot state. -/
theorem exti_callback_enqueue_iff_witness :
    (8 : Nat) ≠ 16 ∧
    putsAttempted (HAL_GPIO_EXTI_Callback ⟨8, 16⟩ (fun _ => GPIO_PinState.GPIO_PIN_SET)
        100 8 boot).2 = [DISPLAY_MODE_BONGO] ∧
    putsAttempted (HAL_GPIO_EXTI_Callback ⟨8, 16⟩ (fun _ => GPIO_PinState.GPIO_PIN_SET)
        100 16 boot).2 = [DISPLAY_MODE_QRCODE] :=
  have h := exti_callback_enqueue_iff ⟨8, 16⟩ (by decide)
    (fun _ => GPIO_PinState.GPIO_PIN_SET) 100 boot
  ⟨by decide, h.1.trans (by decide), h.2.trans (by decide)⟩

/-- C2. State effect of the handler. An edge accepted on SW1 (resp. SW2) at tick `now`
sets that button's last-accepted time to `now`, for every queue content (so whether or
not the put succeeds), and leaves the other button's time and `current_display_mode`
alone. A call that is not accepted (level not set, or inside the 50 ms window) or whose
pin is neither SW1 nor SW2 returns the state it was given (both times, the mode and the
queue contents) and attempts no put. -/
theorem exti_callback_state_effect (p : Pins) (hp : p.SW1_Pin ≠ p.SW2_Pin)
    (readPin : Nat → GPIO_PinState) (now gpio_pin : Nat) (s : State) :
    (gpio_pin = p.SW1_Pin → readPin p.SW1_Pin = GPIO_PinState.GPIO_PIN_SET →
      50 < sub32 now s.last_sw1_time →
        (HAL_GPIO_EXTI_Callback p readPin now gpio_pin s).1.last_sw1_time = now ∧
        (HAL_GPIO_EXTI_Callback p readPin now gpio_pin s).1.last_sw2_time = s.last_sw2_time ∧
        (HAL_GPIO_EXTI_Callback p readPin now gpio_pin s).1.current_display_mode
          = s.current_display_mode) ∧
    (gpio_pin = p.SW2_Pin → readPin p.SW2_Pin = GPIO_PinState.GPIO_PIN_SET →
      50 < sub32 now s.last_sw2_time →
        (HAL_GPIO_EXTI_Callback p readPin now gpio_pin s).1.last_sw2_time = now ∧
        (HAL_GPIO_EXTI_Callback p readPin now gpio_pin s).1.last_sw1_time = s.last_sw1_time ∧
        (HAL_GPIO_EXTI_Callback p readPin now gpio_pin s).1.current_display_mode
          = s.current_display_mode) ∧
    ((gpio_pin = p.SW1_Pin ∧
        ¬ (readPin p.SW1_Pin = GPIO_PinState.GPIO_PIN_SET ∧ 50 < sub32 now s.last_sw1_time)) ∨
      (gpio_pin = p.SW2_Pin ∧
        ¬ (readPin p.SW2_Pin = GPIO_PinState.GPIO_PIN_SET ∧ 50 < sub32 now s.last_sw2_time)) ∨
      (gpio_pin ≠ p.SW1_Pin ∧ gpio_pin ≠ p.SW2_Pin) →
        (HAL_GPIO_EXTI_Callback p readPin now gpio_pin s).1 = s ∧
        putsAttempted (HAL_GPIO_EXTI_Callback p readPin now gpio_pin s).2 = []) := by
  have hp2 : ¬ p.SW2_Pin = p.SW1_Pin := fun h => hp h.symm
  refine ⟨?_, ?_, ?_⟩
  · intro h1 h2 h3
    subst h1
    simp [HAL_GPIO_EXTI_Callback, DEBOUNCE_MS, h2, h3]
  · intro h1 h2 h3
    subst h1
    simp [HAL_GPIO_EXTI_Callback, DEBOUNCE_MS, h2, h3, hp2]
  · rintro (⟨h1, h2⟩ | ⟨h1, h2⟩ | ⟨h1, h2⟩)
    · subst h1
      simp [HAL_GPIO_EXTI_Callback, DEBOUNCE_MS, h2, putsAttempted]
    · subst h1
      simp [HAL_GPIO_EXTI_Callback, DEBOUNCE_MS, h2, hp2, putsAttempted]
    · simp [HAL_GPIO_EXTI_Callback, h1, h2, putsAttempted]

/-- Instance of C2 on a board with `SW1_Pin = 8`, `SW2_Pin = 16`: from a state whose queue
is already full, a pressed SW1 edge at tick 100 is accepted and stamps `last_sw1_time`;
a released SW1 edge at the same tick changes nothing. -/
theorem exti_callback_state_effect_witness :
    (8 : Nat) ≠ 16 ∧
    (HAL_GPIO_EXTI_Callback ⟨8, 16⟩ (fun _ => GPIO_PinState.GPIO_PIN_SET) 100 8
        { boot with display_mode_queue := [1, 1, 1] }).1.last_sw1_time = 100 ∧
    (HAL_GPIO_EXTI_Callback ⟨8, 16⟩ (fun _ => GPIO_PinState.GPIO_PIN_RESET) 100 8 boot).1
        = boot :=
  ⟨by decide,
   ((exti_callback_state_effect ⟨8, 16⟩ (by decide) (fun _ => GPIO_PinState.GPIO_PIN_SET)
      100 8 { boot with display_mode_queue := [1, 1, 1] }).1 rfl rfl (by decide)).1,
   ((exti_callback_state_effect ⟨8, 16⟩ (by decide) (fun _ => GPIO_PinState.GPIO_PIN_RESET)
      100 8 boot).2.2 (Or.inl ⟨rfl, by decide⟩)).1⟩

/-! ## Sequences of pressed edges -/

theorem sub32_of_le {a b : Nat} (hba : b ≤ a) (ha : a < 2 ^ 32) : sub32 a b = a - b := by
  unfold sub32
  have hb : b < 2 ^ 32 := lt_of_le_of_lt hba ha
  rw [Nat.mod_eq_of_lt ha, Nat.mod_eq_of_lt hb]
  have h : a + 2 ^ 32 - b = (a - b) + 2 ^ 32 := by omega
  rw [h, Nat.add_mod_right]
  exact Nat.mod_eq_of_lt (lt_of_le_of_lt (Nat.sub_le a b) ha)

theorem accepts_iff (p : Pins) (e : Edge) (s : State) :
    accepts p e s = true ↔
      (e.gpio_pin = p.SW1_Pin ∧ 50 < sub32 e.time s.last_sw1_time) ∨
      (e.gpio_pin ≠ p.SW1_Pin ∧ e.gpio_pin = p.SW2_Pin ∧ 50 < sub32 e.time s.last_sw2_time) := by
  unfold accepts pressed HAL_GPIO_EXTI_Callback putsAttempted
  by_cases h1 : e.gpio_pin = p.SW1_Pin
  · by_cases h : 50 < sub32 e.time s.last_sw1_time <;> simp [h1, h, DEBOUNCE_MS]
  · by_cases h2 : e.gpio_pin = p.SW2_Pin
    · have h12 : ¬ p.SW2_Pin = p.SW1_Pin := h2 ▸ h1
      by_cases h : 50 < sub32 e.time s.last_sw2_time <;> simp [h2, h12, h, DEBOUNCE_MS]
    · simp [h1, h2]

theorem pressed_last_sw1 (p : Pins) (e : Edge) (s : State) :
    (pressed p e s).1.last_sw1_time =
      if e.gpio_pin = p.SW1_Pin ∧ 50 < sub32 e.time s.last_sw1_time then e.time
      else s.last_sw1_time := by
  unfold pressed HAL_GPIO_EXTI_Callback
  by_cases h1 : e.gpio_pin = p.SW1_Pin
  · by_cases h : 50 < sub32 e.time s.last_sw1_time <;> simp [h1, h, DEBOUNCE_MS]
  · by_cases h2 : e.gpio_pin = p.SW2_Pin
    · have h12 : ¬ p.SW2_Pin = p.SW1_Pin := h2 ▸ h1
      by_cases h : 50 < sub32 e.time s.last_sw2_time <;> simp [h2, h12, h, DEBOUNCE_MS]
    · simp [h1, h2]

theorem pressed_last_sw2 (p : Pins) (e : Edge) (s : State) :
    (pressed p e s).1.last_sw2_time =
      if e.gpio_pin ≠ p.SW1_Pin ∧ e.gpio_pin = p.SW2_Pin ∧ 50 < sub32 e.time s.last_sw2_time
      then e.time else s.last_sw2_time := by
  unfold pressed HAL_GPIO_EXTI_Callback
  by_cases h1 : e.gpio_pin = p.SW1_Pin
  · by_cases h : 50 < sub32 e.time s.last_sw1_time <;> simp [h1, h, DEBOUNCE_MS]
  · by_cases h2 : e.gpio_pin = p.SW2_Pin
    · have h12 : ¬ p.SW2_Pin = p.SW1_Pin := h2 ▸ h1
      by_cases h : 50 < sub32 e.time s.last_sw2_time <;> simp [h2, h12, h, DEBOUNCE_MS]
    · simp [h1, h2]

theorem feed_append (p : Pins) (pre : List Edge) (e : Edge) (s : State) :
    feed p (pre ++ [e]) s = (pressed p e (feed p pre s)).1 := by
  induction pre generalizing s with
  | nil => rfl
  | cons a pre ih => simpa [feed] using ih (pressed p a s).1

theorem acceptedEdges_append (p : Pins) (pre : List Edge) (e : Edge) (s : State) :
    acceptedEdges p (pre ++ [e]) s =
      acceptedEdges p pre s ++ (if accepts p e (feed p pre s) then [e] else []) := by
  induction pre generalizing s with
  | nil => simp [acceptedEdges, feed]
  | cons a pre ih => simp [acceptedEdges, feed, ih (pressed p a s).1]

theorem acceptedEdges_subset (p : Pins) (es : List Edge) (s : State) :
    ∀ a ∈ acceptedEdges p es s, a ∈ es := by
  induction es generalizing s with
  | nil => simp [acceptedEdges]
  | cons e es ih =>
    intro a ha
    simp only [acceptedEdges, List.mem_append] at ha
    rcases ha with ha | ha
    · by_cases h : accepts p e s = true
      · simp [h] at ha
        simp [ha]
      · simp [h] at ha
    · exact List.mem_cons_of_mem _ (ih _ a ha)

/-- Along a run from `boot` over edges with non-decreasing ticks, each button's stored
time dominates the ticks of the accepted edges of that button, and is either still the
initial 0 or the tick of one of them. -/
theorem feed_invariant (p : Pins) (hp : p.SW1_Pin ≠ p.SW2_Pin) (pre : List Edge)
    (hs : pre.Pairwise (fun a b => a.time ≤ b.time)) :
    (∀ a ∈ acceptedEdges p pre boot, a.gpio_pin = p.SW1_Pin →
        a.time ≤ (feed p pre boot).last_sw1_time) ∧
    ((feed p pre boot).last_sw1_time = 0 ∨
      ∃ a ∈ acceptedEdges p pre boot,
        a.gpio_pin = p.SW1_Pin ∧ a.time = (feed p pre boot).last_sw1_time) ∧
    (∀ a ∈ acceptedEdges p pre boot, a.gpio_pin = p.SW2_Pin →
        a.time ≤ (feed p pre boot).last_sw2_time) ∧
    ((feed p pre boot).last_sw2_time = 0 ∨
      ∃ a ∈ acceptedEdges p pre boot,
        a.gpio_pin = p.SW2_Pin ∧ a.time = (feed p pre boot).last_sw2_time) := by
  induction pre using List.reverseRecOn with
  | nil => simp [acceptedEdges, feed, boot]
  | append_singleton pre e ih =>
    rw [List.pairwise_append] at hs
    obtain ⟨hs1, -, hs3⟩ := hs
    have hle : ∀ a ∈ acceptedEdges p pre boot, a.time ≤ e.time :=
      fun a ha => hs3 a (acceptedEdges_subset p pre boot a ha) e (by simp)
    obtain ⟨i1, i2, i3, i4⟩ := ih hs1
    rw [feed_append, acceptedEdges_append, pressed_last_sw1, pressed_last_sw2]
    by_cases c1 : e.gpio_pin = p.SW1_Pin ∧ 50 < sub32 e.time (feed p pre boot).last_sw1_time
    · have acc : accepts p e (feed p pre boot) = true := (accepts_iff p e _).2 (Or.inl c1)
      have c2 : ¬ (e.gpio_pin ≠ p.SW1_Pin ∧ e.gpio_pin = p.SW2_Pin ∧
          50 < sub32 e.time (feed p pre boot).last_sw2_time) := fun h => h.1 c1.1
      have e2 : ¬ e.gpio_pin = p.SW2_Pin := fun h => hp (c1.1.symm.trans h)
      rw [if_pos c1, if_neg c2, if_pos acc]
      refine ⟨?_, ?_, ?_, ?_⟩
      · intro a ha _
        rcases List.mem_append.1 ha with ha | ha
        · exact hle a ha
        · rw [List.mem_singleton.1 ha]
      · exact Or.inr ⟨e, by simp, c1.1, rfl⟩
      · intro a ha hpin
        rcases List.mem_append.1 ha with ha | ha
        · exact i3 a ha hpin
        · rw [List.mem_singleton.1 ha] at hpin
          exact absurd hpin e2
      · rcases i4 with h | ⟨a, ha, h1, h2⟩
        · exact Or.inl h
        · exact Or.inr ⟨a, List.mem_append_left _ ha, h1, h2⟩
    · by_cases c2 : e.gpio_pin ≠ p.SW1_Pin ∧ e.gpio_pin = p.SW2_Pin ∧
          50 < sub32 e.time (feed p pre boot).last_sw2_time
      · have acc : accepts p e (feed p pre boot) = true := (accepts_iff p e _).2 (Or.inr c2)
        rw [if_neg c1, if_pos c2, if_pos acc]
        refine ⟨?_, ?_, ?_, ?_⟩
        · intro a ha hpin
          rcases List.mem_append.1 ha with ha | ha
          · exact i1 a ha hpin
          · rw [List.mem_singleton.1 ha] at hpin
            exact absurd hpin c2.1
        · rcases i2 with h | ⟨a, ha, h1, h2⟩
          · exact Or.inl h
          · exact Or.inr ⟨a, List.mem_append_left _ ha, h1, h2⟩
        · intro a ha _
          rcases List.mem_append.1 ha with ha | ha
          · exact hle a ha
          · rw [List.mem_singleton.1 ha]
        · exact Or.inr ⟨e, by simp, c2.2.1, rfl⟩
      · have acc : ¬ accepts p e (feed p pre boot) = true := fun h =>
          ((accepts_iff p e _).1 h).elim c1 c2
        rw [if_neg c1, if_neg c2, if_neg acc, List.append_nil]
        exact ⟨i1, i2, i3, i4⟩

theorem pressed_sw1 (p : Pins) (t : Nat) (s : State) :
    (pressed p ⟨p.SW1_Pin, t⟩ s).1 =
      if 50 < sub32 t s.last_sw1_time then
        { s with display_mode_queue := (osMessageQueuePut s.display_mode_queue DISPLAY_MODE_BONGO).2,
                 last_sw1_time := t }
      else s := by
  by_cases h : 50 < sub32 t s.last_sw1_time <;>
    simp [pressed, HAL_GPIO_EXTI_Callback, DEBOUNCE_MS, h]

theorem accepts_sw1 (p : Pins) (t : Nat) (s : State) :
    accepts p ⟨p.SW1_Pin, t⟩ s = decide (50 < sub32 t s.last_sw1_time) := by
  by_cases h : 50 < sub32 t s.last_sw1_time
  · rw [decide_eq_true h]
    exact (accepts_iff p _ s).2 (Or.inl ⟨rfl, h⟩)
  · rw [decide_eq_false h]
    have : ¬ accepts p ⟨p.SW1_Pin, t⟩ s = true := fun ha =>
      ((accepts_iff p _ s).1 ha).elim (fun c => h c.2) (fun c => c.1 rfl)
    simpa using this

/-- C3 (as amended). Pressed edges with non-decreasing 32-bit ticks, fed to the handler
from the boot state (both stored times 0): an edge on SW1 or SW2 at tick `t` is accepted
iff `t > 50` and every previously accepted edge on the same button lies more than 50
ticks before `t`. SW1 edges at ticks 0, 30 and 60 leave exactly one Bongo entry in the
queue (only the edge at 60 is accepted); the same pattern at ticks 100, 130 and 160
leaves exactly two (the edges at 100 and 160). -/
theorem debounce_accept_iff (p : Pins) (hp : p.SW1_Pin ≠ p.SW2_Pin) :
    (∀ (pre : List Edge) (e : Edge),
      (pre ++ [e]).Pairwise (fun a b => a.time ≤ b.time) → e.time < 2 ^ 32 →
      (e.gpio_pin = p.SW1_Pin ∨ e.gpio_pin = p.SW2_Pin) →
      (accepts p e (feed p pre boot) = true ↔
        50 < e.time ∧
        ∀ a ∈ acceptedEdges p pre boot, a.gpio_pin = e.gpio_pin → 50 < e.time - a.time)) ∧
    acceptedEdges p [⟨p.SW1_Pin, 0⟩, ⟨p.SW1_Pin, 30⟩, ⟨p.SW1_Pin, 60⟩] boot
      = [⟨p.SW1_Pin, 60⟩] ∧
    (feed p [⟨p.SW1_Pin, 0⟩, ⟨p.SW1_Pin, 30⟩, ⟨p.SW1_Pin, 60⟩] boot).display_mode_queue
      = [DISPLAY_MODE_BONGO] ∧
    acceptedEdges p [⟨p.SW1_Pin, 100⟩, ⟨p.SW1_Pin, 130⟩, ⟨p.SW1_Pin, 160⟩] boot
      = [⟨p.SW1_Pin, 100⟩, ⟨p.SW1_Pin, 160⟩] ∧
    (feed p [⟨p.SW1_Pin, 100⟩, ⟨p.SW1_Pin, 130⟩, ⟨p.SW1_Pin, 160⟩] boot).display_mode_queue
      = [DISPLAY_MODE_BONGO, DISPLAY_MODE_BONGO] := by
  refine ⟨?_, ?_, ?_, ?_, ?_⟩
  · intro pre e hs ht hpin
    have hs0 := hs
    rw [List.pairwise_append] at hs
    obtain ⟨hs1, -, hs3⟩ := hs
    have hle : ∀ a ∈ acceptedEdges p pre boot, a.time ≤ e.time :=
      fun a ha => hs3 a (acceptedEdges_subset p pre boot a ha) e (by simp)
    obtain ⟨i1, i2, i3, i4⟩ := feed_invariant p hp pre hs1
    have l1 : (feed p pre boot).last_sw1_time ≤ e.time := by
      rcases i2 with h | ⟨a, ha, -, h2⟩
      · omega
      · rw [← h2]; exact hle a ha
    have l2 : (feed p pre boot).last_sw2_time ≤ e.time := by
      rcases i4 with h | ⟨a, ha, -, h2⟩
      · omega
      · rw [← h2]; exact hle a ha
    rw [accepts_iff, sub32_of_le l1 ht, sub32_of_le l2 ht]
    rcases hpin with hpin | hpin
    · have e2 : ¬ e.gpio_pin ≠ p.SW1_Pin := fun h => h hpin
      constructor
      · rintro (⟨-, h⟩ | ⟨h, -⟩)
        · refine ⟨by omega, fun a ha hpa => ?_⟩
          have := i1 a ha (hpa.trans hpin)
          omega
        · exact absurd h e2
      · rintro ⟨h0, h⟩
        refine Or.inl ⟨hpin, ?_⟩
        rcases i2 with h2 | ⟨a, ha, h1, h2⟩
        · omega
        · have := h a ha (h1.trans hpin.symm)
          omega
    · have e1 : e.gpio_pin ≠ p.SW1_Pin := fun h => hp (h.symm.trans hpin)
      constructor
      · rintro (⟨h, -⟩ | ⟨-, -, h⟩)
        · exact absurd h e1
        · refine ⟨by omega, fun a ha hpa => ?_⟩
          have := i3 a ha (hpa.trans hpin)
          omega
      · rintro ⟨h0, h⟩
        refine Or.inr ⟨e1, hpin, ?_⟩
        rcases i4 with h2 | ⟨a, ha, h1, h2⟩
        · omega
        · have := h a ha (h1.trans hpin.symm)
          omega
  all_goals
    have r0 : (pressed p ⟨p.SW1_Pin, 0⟩ boot).1 = boot := by
      rw [pressed_sw1]; rfl
    have r30 : (pressed p ⟨p.SW1_Pin, 30⟩ boot).1 = boot := by
      rw [pressed_sw1]; rfl
    have r60 : (pressed p ⟨p.SW1_Pin, 60⟩ boot).1 =
        { boot with display_mode_queue := [DISPLAY_MODE_BONGO], last_sw1_time := 60 } := by
      rw [pressed_sw1]; rfl
    have r100 : (pressed p ⟨p.SW1_Pin, 100⟩ boot).1 =
        { boot with display_mode_queue := [DISPLAY_MODE_BONGO], last_sw1_time := 100 } := by
      rw [pressed_sw1]; rfl
    have r130 : (pressed p ⟨p.SW1_Pin, 130⟩
          { boot with display_mode_queue := [DISPLAY_MODE_BONGO], last_sw1_time := 100 }).1 =
        { boot with display_mode_queue := [DISPLAY_MODE_BONGO], last_sw1_time := 100 } := by
      rw [pressed_sw1]; rfl
    have r160 : (pressed p ⟨p.SW1_Pin, 160⟩
          { boot with display_mode_queue := [DISPLAY_MODE_BONGO], last_sw1_time := 100 }).1 =
        { boot with display_mode_queue := [DISPLAY_MODE_BONGO, DISPLAY_MODE_BONGO],
                    last_sw1_time := 160 } := by
      rw [pressed_sw1]; rfl
    simp only [acceptedEdges, feed, r0, r30, r60, r100, r130, r160, accepts_sw1] <;> rfl

/-- Instance of the amended C3 with `SW1_Pin = 8`, `SW2_Pin = 16`: after SW1 edges at
ticks 0 and 30 (both rejected), the SW1 edge at tick 60 is accepted. -/
theorem debounce_accept_iff_witness :
    (8 : Nat) ≠ 16 ∧
    accepts ⟨8, 16⟩ ⟨8, 60⟩ (feed ⟨8, 16⟩ [⟨8, 0⟩, ⟨8, 30⟩] boot) = true :=
  ⟨by decide,
   ((debounce_accept_iff ⟨8, 16⟩ (by decide)).1 [⟨8, 0⟩, ⟨8, 30⟩] ⟨8, 60⟩
      (by decide) (by norm_num) (Or.inl rfl)).2 ⟨by decide, by decide⟩⟩

/-- C3 as stated fails on the code. With `SW1_Pin = 8`, `SW2_Pin = 16` and the boot state:
the SW1 edge at tick 0 is rejected although no edge has been accepted before it, and the
SW1 edges at ticks 0, 30, 60 put one Bongo entry in the queue, not two. -/
theorem debounce_boot_window_counterexample :
    ¬ (accepts ⟨8, 16⟩ ⟨8, 0⟩ (feed ⟨8, 16⟩ [] boot) = true ↔
        ∀ a ∈ acceptedEdges ⟨8, 16⟩ [] boot, a.gpio_pin = 8 → 50 < 0 - a.time) ∧
    acceptedEdges ⟨8, 16⟩ [⟨8, 0⟩, ⟨8, 30⟩, ⟨8, 60⟩] boot = [⟨8, 60⟩] ∧
    (feed ⟨8, 16⟩ [⟨8, 0⟩, ⟨8, 30⟩, ⟨8, 60⟩] boot).display_mode_queue = [DISPLAY_MODE_BONGO] ∧
    (feed ⟨8, 16⟩ [⟨8, 0⟩, ⟨8, 30⟩, ⟨8, 60⟩] boot).display_mode_queue
      ≠ [DISPLAY_MODE_BONGO, DISPLAY_MODE_BONGO] := by
  refine ⟨?_, ?_, ?_, ?_⟩ <;> decide

/-! ## Display task loop -/

theorem dispatch_current_display_mode (s : State) :
    (dispatch s).1.current_display_mode = s.current_display_mode := by
  unfold dispatch DrawBongoCat DrawQRCode DrawInfoScreen
  split_ifs <;> rfl

theorem dispatch_last_update (s : State) : (dispatch s).1.last_update = s.last_update := by
  unfold dispatch DrawBongoCat DrawQRCode DrawInfoScreen
  split_ifs <;> rfl

theorem dispatch_display_mode_queue (s : State) :
    (dispatch s).1.display_mode_queue = s.display_mode_queue := by
  unfold dispatch DrawBongoCat DrawQRCode DrawInfoScreen
  split_ifs <;> rfl

theorem dispatch_count_send (s : State) :
    (dispatch s).2.count Event.u8g2_SendBuffer = 0 := by
  unfold dispatch DrawBongoCat DrawQRCode DrawInfoScreen
  split_ifs <;> simp

theorem dispatch_count_clear (s : State) :
    (dispatch s).2.count Event.u8g2_ClearBuffer = 0 := by
  unfold dispatch DrawBongoCat DrawQRCode DrawInfoScreen
  split_ifs <;> simp

/-- C4 (as amended). An iteration whose dequeue succeeds with value `m` sets
`current_display_mode` to `m` and clears the draw buffer. If the 32-bit difference
`current_time - last_update` is at least 200 it goes on to redraw in the same iteration
(clear, dispatch on `m`, one flush) and sets `last_update` to the current tick; if the
difference is below 200 it issues no draw and no flush and leaves `last_update` and the
Bongo frame toggle as they were. -/
theorem display_task_dequeue_success (m now : Nat) (s : State) :
    (OLED_Display_Task_body (some m) now s).1.current_display_mode = m ∧
    OLED_Display_Task_body (some m) now s =
      (if 200 ≤ sub32 now s.last_update then
        ({ (dispatch { s with current_display_mode := m }).1 with last_update := now },
          [Event.u8g2_ClearBuffer] ++
            ([Event.u8g2_ClearBuffer] ++ (dispatch { s with current_display_mode := m }).2 ++
              [Event.u8g2_SendBuffer]))
      else ({ s with current_display_mode := m }, [Event.u8g2_ClearBuffer])) ∧
    (OLED_Display_Task_body (some m) now s).2.count Event.u8g2_SendBuffer =
      (if 200 ≤ sub32 now s.last_update then 1 else 0) := by
  by_cases h : 200 ≤ sub32 now s.last_update
  · simp [OLED_Display_Task_body, redraw, OLED_ANIMATION_DELAY_MS, h,
      dispatch_current_display_mode, dispatch_count_send]
  · simp [OLED_Display_Task_body, redraw, OLED_ANIMATION_DELAY_MS, h]

/-- C4 as stated fails on the code: with `last_update = 1000`, a dequeue that succeeds
with Bongo at tick 1050 only clears the buffer; nothing is drawn or flushed in that
iteration and `last_update` stays 1000. -/
theorem display_task_dequeue_no_redraw_counterexample :
    (OLED_Display_Task_body (some DISPLAY_MODE_BONGO) 1050
        { boot with last_update := 1000 }).2 = [Event.u8g2_ClearBuffer] ∧
    Event.u8g2_SendBuffer ∉ (OLED_Display_Task_body (some DISPLAY_MODE_BONGO) 1050
        { boot with last_update := 1000 }).2 ∧
    (OLED_Display_Task_body (some DISPLAY_MODE_BONGO) 1050
        { boot with last_update := 1000 }).1.last_update = 1000 ∧
    (OLED_Display_Task_body (some DISPLAY_MODE_BONGO) 1050
        { boot with last_update := 1000 }).1.last_update ≠ 1050 := by
  refine ⟨?_, ?_, ?_, ?_⟩ <;> decide

/-- C5. An iteration whose dequeue times out leaves `current_display_mode` alone. If the
32-bit difference `current_time - last_update` is at least 200 it performs exactly one
redraw (clear, dispatch, one flush) and sets `last_update` to the current tick; if the
difference is below 200 it issues no call at all and returns the state unchanged
(`last_update` and the Bongo frame toggle included). -/
theorem display_task_dequeue_timeout (now : Nat) (s : State) :
    (OLED_Display_Task_body none now s).1.current_display_mode = s.current_display_mode ∧
    OLED_Display_Task_body none now s =
      (if 200 ≤ sub32 now s.last_update then
        ({ (dispatch s).1 with last_update := now },
          [Event.u8g2_ClearBuffer] ++ (dispatch s).2 ++ [Event.u8g2_SendBuffer])
      else (s, [])) ∧
    (OLED_Display_Task_body none now s).2.count Event.u8g2_SendBuffer =
      (if 200 ≤ sub32 now s.last_update then 1 else 0) ∧
    (OLED_Display_Task_body none now s).2.count Event.u8g2_ClearBuffer =
      (if 200 ≤ sub32 now s.last_update then 1 else 0) := by
  by_cases h : 200 ≤ sub32 now s.last_update
  · simp [OLED_Display_Task_body, redraw, OLED_ANIMATION_DELAY_MS, h,
      dispatch_current_display_mode, dispatch_count_send, dispatch_count_clear]
  · simp [OLED_Display_Task_body, redraw, OLED_ANIMATION_DELAY_MS, h]

/-! ## The system: handler calls interleaved with task iterations -/

theorem lastDequeuedFrom_append (acc : Option Nat) (xs ys : List Event) :
    lastDequeuedFrom acc (xs ++ ys) = lastDequeuedFrom (lastDequeuedFrom acc xs) ys := by
  simp [lastDequeuedFrom, List.foldl_append]

theorem lastDequeuedFrom_callback (p : Pins) (readPin : Nat → GPIO_PinState)
    (tick gpio_pin : Nat) (s : State) (acc : Option Nat) :
    lastDequeuedFrom acc (HAL_GPIO_EXTI_Callback p readPin tick gpio_pin s).2 = acc := by
  by_cases h1 : gpio_pin = p.SW1_Pin
  · by_cases c : readPin p.SW1_Pin = GPIO_PinState.GPIO_PIN_SET ∧
        sub32 tick s.last_sw1_time > DEBOUNCE_MS
    · by_cases q : (osMessageQueuePut s.display_mode_queue DISPLAY_MODE_BONGO).1 = true <;>
        simp [HAL_GPIO_EXTI_Callback, h1, c, q, lastDequeuedFrom]
    · simp [HAL_GPIO_EXTI_Callback, h1, c, lastDequeuedFrom]
  · by_cases h2 : gpio_pin = p.SW2_Pin
    · have h12 : ¬ p.SW2_Pin = p.SW1_Pin := h2 ▸ h1
      by_cases c : readPin p.SW2_Pin = GPIO_PinState.GPIO_PIN_SET ∧
          sub32 tick s.last_sw2_time > DEBOUNCE_MS
      · by_cases q : (osMessageQueuePut s.display_mode_queue DISPLAY_MODE_QRCODE).1 = true <;>
          simp [HAL_GPIO_EXTI_Callback, h12, h2, c, q, lastDequeuedFrom]
      · simp [HAL_GPIO_EXTI_Callback, h12, h2, c, lastDequeuedFrom]
    · simp [HAL_GPIO_EXTI_Callback, h1, h2, lastDequeuedFrom]

theorem callback_current_display_mode (p : Pins) (readPin : Nat → GPIO_PinState)
    (tick gpio_pin : Nat) (s : State) :
    (HAL_GPIO_EXTI_Callback p readPin tick gpio_pin s).1.current_display_mode
      = s.current_display_mode := by
  by_cases h1 : gpio_pin = p.SW1_Pin
  · by_cases c : readPin p.SW1_Pin = GPIO_PinState.GPIO_PIN_SET ∧
        sub32 tick s.last_sw1_time > DEBOUNCE_MS <;>
      simp [HAL_GPIO_EXTI_Callback, h1, c]
  · by_cases h2 : gpio_pin = p.SW2_Pin
    · have h12 : ¬ p.SW2_Pin = p.SW1_Pin := h2 ▸ h1
      by_cases c : readPin p.SW2_Pin = GPIO_PinState.GPIO_PIN_SET ∧
          sub32 tick s.last_sw2_time > DEBOUNCE_MS <;>
        simp [HAL_GPIO_EXTI_Callback, h12, h2, c]
    · simp [HAL_GPIO_EXTI_Callback, h1, h2]

theorem lastDequeuedFrom_dispatch (s : State) (acc : Option Nat) :
    lastDequeuedFrom acc (dispatch s).2 = acc := by
  unfold dispatch DrawBongoCat DrawQRCode DrawInfoScreen
  split_ifs <;> simp [lastDequeuedFrom]

theorem lastDequeuedFrom_body (status : Option Nat) (tick : Nat) (s : State)
    (acc : Option Nat) :
    lastDequeuedFrom acc (OLED_Display_Task_body status tick s).2 = acc := by
  have hclear : ∀ a : Option Nat, lastDequeuedFrom a [Event.u8g2_ClearBuffer] = a := fun _ => rfl
  have hsend : ∀ a : Option Nat, lastDequeuedFrom a [Event.u8g2_SendBuffer] = a := fun _ => rfl
  have hnil : ∀ a : Option Nat, lastDequeuedFrom a [] = a := fun _ => rfl
  unfold OLED_Display_Task_body redraw
  cases status <;> dsimp only <;> split_ifs <;>
    simp only [lastDequeuedFrom_append, lastDequeuedFrom_dispatch, hclear, hsend, hnil]

theorem body_current_display_mode (status : Option Nat) (tick : Nat) (s : State) :
    (OLED_Display_Task_body status tick s).1.current_display_mode
      = status.getD s.current_display_mode := by
  unfold OLED_Display_Task_body redraw
  cases status <;> dsimp only <;> split_ifs <;> simp [dispatch_current_display_mode]

theorem step_invariant (p : Pins) (st : Step) (s : State) (acc : Option Nat)
    (h : s.current_display_mode = acc.getD DISPLAY_MODE_INFO) :
    (step p st s).1.current_display_mode
      = (lastDequeuedFrom acc (step p st s).2).getD DISPLAY_MODE_INFO := by
  cases st with
  | edge readPin tick gpio_pin =>
    simp only [step]
    rw [lastDequeuedFrom_callback, callback_current_display_mode, h]
  | task tick =>
    simp only [step, OLED_Display_Task_iteration]
    rw [body_current_display_mode]
    have hc : ∀ (x : Event) (xs : List Event),
        lastDequeuedFrom acc (x :: xs) = lastDequeuedFrom (lastDequeuedFrom acc [x]) xs :=
      fun x xs => lastDequeuedFrom_append acc [x] xs
    rw [hc, lastDequeuedFrom_body]
    cases hq : s.display_mode_queue with
    | nil => simpa [osMessageQueueGet, lastDequeuedFrom] using h
    | cons m rest => simp [osMessageQueueGet, lastDequeuedFrom]

theorem run_invariant (p : Pins) (steps : List Step) (s : State) (acc : Option Nat)
    (h : s.current_display_mode = acc.getD DISPLAY_MODE_INFO) :
    (run p steps s).1.current_display_mode
      = (lastDequeuedFrom acc (run p steps s).2).getD DISPLAY_MODE_INFO := by
  induction steps generalizing s acc with
  | nil => simpa [run, lastDequeuedFrom] using h
  | cons st rest ih =>
    simp only [run]
    rw [lastDequeuedFrom_append]
    exact ih _ _ (step_invariant p st s acc h)

theorem iteration_idle_info (tick : Nat) (s : State) (hq : s.display_mode_queue = [])
    (hm : s.current_display_mode = DISPLAY_MODE_INFO) :
    OLED_Display_Task_iteration tick s =
      if 200 ≤ sub32 tick s.last_update then
        ({ s with last_update := tick }, Event.osMessageQueueGet none :: infoFrame)
      else (s, [Event.osMessageQueueGet none]) := by
  have hs : { s with display_mode_queue := [] } = s := by rw [← hq]
  by_cases h : 200 ≤ sub32 tick s.last_update
  · simp [OLED_Display_Task_iteration, OLED_Display_Task_body, osMessageQueueGet, hq, hs, h,
      OLED_ANIMATION_DELAY_MS, redraw, dispatch, hm, DISPLAY_MODE_INFO, DISPLAY_MODE_BONGO,
      DISPLAY_MODE_QRCODE, DrawInfoScreen, infoFrame, TEXT_OFFSET_Y, OLED_WELCOME_MESSAGE]
  · simp [OLED_Display_Task_iteration, OLED_Display_Task_body, osMessageQueueGet, hq, hs, h,
      OLED_ANIMATION_DELAY_MS]

theorem displayCommands_append (xs ys : List Event) :
    displayCommands (xs ++ ys) = displayCommands xs ++ displayCommands ys := by
  simp [displayCommands]

theorem run_tasks_only_info (p : Pins) (ticks : List Nat) (s : State)
    (hq : s.display_mode_queue = []) (hm : s.current_display_mode = DISPLAY_MODE_INFO) :
    ∃ k, displayCommands (run p (ticks.map Step.task) s).2 = infoFrames k := by
  induction ticks generalizing s with
  | nil => exact ⟨0, rfl⟩
  | cons t ticks ih =>
    simp only [List.map_cons, run, step, displayCommands_append]
    rw [iteration_idle_info t s hq hm]
    by_cases h : 200 ≤ sub32 t s.last_update
    · rw [if_pos h]
      obtain ⟨k, hk⟩ := ih { s with last_update := t } hq hm
      exact ⟨k + 1, by rw [hk]; rfl⟩
    · rw [if_neg h]
      obtain ⟨k, hk⟩ := ih s hq hm
      exact ⟨k, by rw [hk]; rfl⟩

/-- C6. In every run of the system from the boot state (handler calls and display-task
iterations in any order, with any pins, levels and ticks), after every step
`current_display_mode` is the value returned by the most recent successful dequeue, or
Info when no dequeue has succeeded yet. With no button input at all, every frame the
task renders (hence the first one) is the Info screen, and the iteration at tick 200
from boot renders it. -/
theorem current_mode_is_last_dequeued (p : Pins) :
    (∀ steps : List Step,
      (run p steps boot).1.current_display_mode
        = (lastDequeued (run p steps boot).2).getD DISPLAY_MODE_INFO) ∧
    (∀ ticks : List Nat,
      ∃ k, displayCommands (run p (ticks.map Step.task) boot).2 = infoFrames k) ∧
    (run p [Step.task 200] boot).2 = Event.osMessageQueueGet none :: infoFrame :=
  ⟨fun steps => run_invariant p steps boot none rfl,
   fun ticks => run_tasks_only_info p ticks boot rfl rfl,
   by simp only [run, step]; rw [iteration_idle_info 200 boot rfl rfl]; rfl⟩

/-! ## Redraw and renderers -/

/-- C7. For every value `v` of `current_display_mode`, enumerator or not, a redraw issues
one clear of the draw buffer, then the calls of exactly one renderer, then one flush:
the Bongo renderer for `v = DISPLAY_MODE_BONGO`, the QRCode renderer for
`v = DISPLAY_MODE_QRCODE`, the Info renderer for every other value. No renderer clears or
flushes, so the clear is the first call and the flush the last. -/
theorem redraw_dispatch (v now : Nat) (s : State) :
    (redraw now { s with current_display_mode := v }).2 =
      [Event.u8g2_ClearBuffer] ++
        (if v = DISPLAY_MODE_BONGO then (DrawBongoCat { s with current_display_mode := v }).2
         else if v = DISPLAY_MODE_QRCODE then (DrawQRCode { s with current_display_mode := v }).2
         else (DrawInfoScreen { s with current_display_mode := v }).2) ++
        [Event.u8g2_SendBuffer] ∧
    (redraw now { s with current_display_mode := v }).2.count Event.u8g2_ClearBuffer = 1 ∧
    (redraw now { s with current_display_mode := v }).2.count Event.u8g2_SendBuffer = 1 ∧
    (DrawBongoCat s).2 ≠ (DrawQRCode s).2 ∧ (DrawBongoCat s).2 ≠ (DrawInfoScreen s).2 ∧
    (DrawQRCode s).2 ≠ (DrawInfoScreen s).2 := by
  refine ⟨?_, ?_, ?_, ?_, ?_, ?_⟩
  · unfold redraw dispatch
    by_cases h0 : v = DISPLAY_MODE_BONGO
    · simp [h0]
    · by_cases h1 : v = DISPLAY_MODE_QRCODE
      · simp [h1, DISPLAY_MODE_QRCODE, DISPLAY_MODE_BONGO]
      · simp [h0, h1]
  · simp [redraw, dispatch_count_clear]
  · simp [redraw, dispatch_count_send]
  · simp [DrawBongoCat, DrawQRCode]
  · simp [DrawBongoCat, DrawInfoScreen]
  · simp [DrawQRCode, DrawInfoScreen]

/-! ## Queue overflow -/

theorem dequeueResults_append (xs ys : List Event) :
    dequeueResults (xs ++ ys) = dequeueResults xs ++ dequeueResults ys := by
  simp [dequeueResults]

theorem dequeueResults_dispatch (s : State) : dequeueResults (dispatch s).2 = [] := by
  unfold dispatch DrawBongoCat DrawQRCode DrawInfoScreen
  split_ifs <;> simp [dequeueResults]

theorem dequeueResults_body (status : Option Nat) (tick : Nat) (s : State) :
    dequeueResults (OLED_Display_Task_body status tick s).2 = [] := by
  have hclear : dequeueResults [Event.u8g2_ClearBuffer] = [] := rfl
  have hsend : dequeueResults [Event.u8g2_SendBuffer] = [] := rfl
  have hnil : dequeueResults [] = [] := rfl
  unfold OLED_Display_Task_body redraw
  cases status <;> dsimp only <;> split_ifs <;>
    simp only [dequeueResults_append, dequeueResults_dispatch, hclear, hsend, hnil,
      List.append_nil]

theorem body_display_mode_queue (status : Option Nat) (tick : Nat) (s : State) :
    (OLED_Display_Task_body status tick s).1.display_mode_queue = s.display_mode_queue := by
  unfold OLED_Display_Task_body redraw
  cases status <;> dsimp only <;> split_ifs <;> simp [dispatch_display_mode_queue]

theorem iteration_dequeues (tick m : Nat) (rest : List Nat) (s : State)
    (hq : s.display_mode_queue = m :: rest) :
    dequeueResults (OLED_Display_Task_iteration tick s).2 = [some m] ∧
    (OLED_Display_Task_iteration tick s).1.display_mode_queue = rest := by
  have hc : ∀ (x : Event) (xs : List Event),
      dequeueResults (x :: xs) = dequeueResults [x] ++ dequeueResults xs :=
    fun x xs => dequeueResults_append [x] xs
  unfold OLED_Display_Task_iteration
  dsimp only
  rw [hc, dequeueResults_body, body_display_mode_queue, hq]
  exact ⟨rfl, rfl⟩

theorem run_three_tasks (p : Pins) (t1 t2 t3 a b c : Nat) (s : State)
    (hq : s.display_mode_queue = [a, b, c]) :
    dequeueResults (run p [Step.task t1, Step.task t2, Step.task t3] s).2
      = [some a, some b, some c] := by
  obtain ⟨d1, q1⟩ := iteration_dequeues t1 a [b, c] s hq
  obtain ⟨d2, q2⟩ := iteration_dequeues t2 b [c] _ q1
  obtain ⟨d3, -⟩ := iteration_dequeues t3 c [] _ q2
  simp only [run, step, dequeueResults_append, d1, d2, d3]
  rfl

/-- C8. With the queue holding three entries `[a, b, c]`, an accepted edge on SW1 (resp.
SW2) leaves the contents `[a, b, c]`: the put fails, the handler transmits
"SWx: Failed to send mode to queue" and returns, with the button's time stamped and
nothing else changed. The three display-task iterations that follow, at any ticks,
dequeue `a`, `b`, `c` in that order. -/
theorem queue_full_drops_mode (p : Pins) (hp : p.SW1_Pin ≠ p.SW2_Pin)
    (readPin : Nat → GPIO_PinState) (now a b c : Nat) (s : State)
    (hq : s.display_mode_queue = [a, b, c]) :
    (readPin p.SW1_Pin = GPIO_PinState.GPIO_PIN_SET → 50 < sub32 now s.last_sw1_time →
      HAL_GPIO_EXTI_Callback p readPin now p.SW1_Pin s =
        ({ s with last_sw1_time := now },
          [Event.HAL_UART_Transmit "SW1: Show bongo cat screen\r\n",
           Event.osMessageQueuePut DISPLAY_MODE_BONGO false,
           Event.HAL_UART_Transmit "SW1: Failed to send mode to queue\r\n"]) ∧
      ∀ t1 t2 t3 : Nat,
        dequeueResults (run p [Step.edge readPin now p.SW1_Pin, Step.task t1, Step.task t2,
          Step.task t3] s).2 = [some a, some b, some c]) ∧
    (readPin p.SW2_Pin = GPIO_PinState.GPIO_PIN_SET → 50 < sub32 now s.last_sw2_time →
      HAL_GPIO_EXTI_Callback p readPin now p.SW2_Pin s =
        ({ s with last_sw2_time := now },
          [Event.HAL_UART_Transmit "SW2: Show QR code page\r\n",
           Event.osMessageQueuePut DISPLAY_MODE_QRCODE false,
           Event.HAL_UART_Transmit "SW2: Failed to send mode to queue\r\n"]) ∧
      ∀ t1 t2 t3 : Nat,
        dequeueResults (run p [Step.edge readPin now p.SW2_Pin, Step.task t1, Step.task t2,
          Step.task t3] s).2 = [some a, some b, some c]) := by
  have hp2 : ¬ p.SW2_Pin = p.SW1_Pin := fun h => hp h.symm
  constructor
  · intro h1 h2
    have hcb : HAL_GPIO_EXTI_Callback p readPin now p.SW1_Pin s =
        ({ s with last_sw1_time := now },
          [Event.HAL_UART_Transmit "SW1: Show bongo cat screen\r\n",
           Event.osMessageQueuePut DISPLAY_MODE_BONGO false,
           Event.HAL_UART_Transmit "SW1: Failed to send mode to queue\r\n"]) := by
      simp [HAL_GPIO_EXTI_Callback, DEBOUNCE_MS, h1, h2, hq, osMessageQueuePut,
        OLED_DISPLAY_MODE_QUEUE_SIZE]
    refine ⟨hcb, fun t1 t2 t3 => ?_⟩
    have hr : run p [Step.edge readPin now p.SW1_Pin, Step.task t1, Step.task t2,
        Step.task t3] s =
        ((run p [Step.task t1, Step.task t2, Step.task t3]
            (HAL_GPIO_EXTI_Callback p readPin now p.SW1_Pin s).1).1,
         (HAL_GPIO_EXTI_Callback p readPin now p.SW1_Pin s).2 ++
          (run p [Step.task t1, Step.task t2, Step.task t3]
            (HAL_GPIO_EXTI_Callback p readPin now p.SW1_Pin s).1).2) := rfl
    have h3 := run_three_tasks p t1 t2 t3 a b c { s with last_sw1_time := now } hq
    rw [hr, dequeueResults_append, hcb]
    dsimp only
    rw [h3]
    rfl
  · intro h1 h2
    have hcb : HAL_GPIO_EXTI_Callback p readPin now p.SW2_Pin s =
        ({ s with last_sw2_time := now },
          [Event.HAL_UART_Transmit "SW2: Show QR code page\r\n",
           Event.osMessageQueuePut DISPLAY_MODE_QRCODE false,
           Event.HAL_UART_Transmit "SW2: Failed to send mode to queue\r\n"]) := by
      simp [HAL_GPIO_EXTI_Callback, DEBOUNCE_MS, h1, h2, hq, hp2, osMessageQueuePut,
        OLED_DISPLAY_MODE_QUEUE_SIZE]
    refine ⟨hcb, fun t1 t2 t3 => ?_⟩
    have hr : run p [Step.edge readPin now p.SW2_Pin, Step.task t1, Step.task t2,
        Step.task t3] s =
        ((run p [Step.task t1, Step.task t2, Step.task t3]
            (HAL_GPIO_EXTI_Callback p readPin now p.SW2_Pin s).1).1,
         (HAL_GPIO_EXTI_Callback p readPin now p.SW2_Pin s).2 ++
          (run p [Step.task t1, Step.task t2, Step.task t3]
            (HAL_GPIO_EXTI_Callback p readPin now p.SW2_Pin s).1).2) := rfl
    have h3 := run_three_tasks p t1 t2 t3 a b c { s with last_sw2_time := now } hq
    rw [hr, dequeueResults_append, hcb]
    dsimp only
    rw [h3]
    rfl

/-- Instance of C8 with `SW1_Pin = 8`, `SW2_Pin = 16`: the queue holds
`[QRCode, Bongo, QRCode]`, SW1 is pressed at tick 100; the three iterations at ticks
300, 500, 700 dequeue QRCode, Bongo, QRCode. -/
theorem queue_full_drops_mode_witness :
    (8 : Nat) ≠ 16 ∧
    dequeueResults (run ⟨8, 16⟩ [Step.edge (fun _ => GPIO_PinState.GPIO_PIN_SET) 100 8,
        Step.task 300, Step.task 500, Step.task 700]
        { boot with display_mode_queue := [1, 0, 1] }).2 = [some 1, some 0, some 1] :=
  ⟨by decide,
   ((queue_full_drops_mode ⟨8, 16⟩ (by decide) (fun _ => GPIO_PinState.GPIO_PIN_SET) 100 1 0 1
      { boot with display_mode_queue := [1, 0, 1] } rfl).1 rfl (by decide)).2 300 500 700⟩

/-! ## Successive redraws -/

theorem redraw_info (t : Nat) (s : State) (h : s.current_display_mode = DISPLAY_MODE_INFO) :
    redraw t s = ({ s with last_update := t }, infoFrame) := by
  simp [redraw, dispatch, h, DISPLAY_MODE_INFO, DISPLAY_MODE_BONGO, DISPLAY_MODE_QRCODE,
    DrawInfoScreen, infoFrame, TEXT_OFFSET_Y, OLED_WELCOME_MESSAGE]

theorem redraw_qrcode (t : Nat) (s : State) (h : s.current_display_mode = DISPLAY_MODE_QRCODE) :
    redraw t s = ({ s with last_update := t }, qrFrame) := by
  simp [redraw, dispatch, h, DISPLAY_MODE_BONGO, DISPLAY_MODE_QRCODE,
    DrawQRCode, qrFrame, TEXT_OFFSET_Y, IMAGE_WIDTH, IMAGE_HEIGHT]

theorem redraw_bongo (t : Nat) (s : State) (h : s.current_display_mode = DISPLAY_MODE_BONGO) :
    redraw t s = ({ s with last_update := t, frame := !s.frame }, bongoFrame s.frame) := by
  simp [redraw, dispatch, h, DrawBongoCat, bongoFrame, BONGO_WIDTH, IMAGE_HEIGHT]

theorem redrawFrames_info (ticks : List Nat) (s : State)
    (h : s.current_display_mode = DISPLAY_MODE_INFO) :
    redrawFrames ticks s = List.replicate ticks.length infoFrame := by
  induction ticks generalizing s with
  | nil => rfl
  | cons t ts ih =>
    simp only [redrawFrames, redraw_info t s h, List.length_cons, List.replicate_succ]
    rw [ih { s with last_update := t } h]

theorem redrawFrames_qrcode (ticks : List Nat) (s : State)
    (h : s.current_display_mode = DISPLAY_MODE_QRCODE) :
    redrawFrames ticks s = List.replicate ticks.length qrFrame := by
  induction ticks generalizing s with
  | nil => rfl
  | cons t ts ih =>
    simp only [redrawFrames, redraw_qrcode t s h, List.length_cons, List.replicate_succ]
    rw [ih { s with last_update := t } h]

theorem redrawFrames_bongo (ticks : List Nat) (s : State)
    (h : s.current_display_mode = DISPLAY_MODE_BONGO) :
    redrawFrames ticks s =
      (List.range ticks.length).map
        (fun i => bongoFrame (if i % 2 = 0 then s.frame else !s.frame)) := by
  induction ticks generalizing s with
  | nil => rfl
  | cons t ts ih =>
    simp only [redrawFrames, redraw_bongo t s h, List.length_cons]
    rw [ih { s with last_update := t, frame := !s.frame } h, List.range_succ_eq_map,
      List.map_cons, List.map_map]
    refine congrArg₂ List.cons (by simp) (List.map_congr_left fun i _ => ?_)
    have hi : i % 2 = 0 ∨ i % 2 = 1 := by omega
    rcases hi with hi | hi
    · have h1 : (i + 1) % 2 = 1 := by omega
      simp [hi, h1]
    · have h1 : (i + 1) % 2 = 0 := by omega
      simp [hi, h1]

/-- C9. Successive redraws with `current_display_mode` unchanged. In Info mode and in
QRCode mode every redraw issues the same calls and leaves the frame toggle alone. In
Bongo mode the `i`-th redraw draws one bitmap: the one selected by the toggle when `i`
is even, the other one when `i` is odd; so consecutive redraws draw different bitmaps
and redraws two apart the same one. `DrawBongoCat` flips the toggle on every call,
`DrawInfoScreen` and `DrawQRCode` return the state they were given. -/
theorem successive_redraws (ticks : List Nat) (s : State) :
    redrawFrames ticks { s with current_display_mode := DISPLAY_MODE_INFO }
      = List.replicate ticks.length infoFrame ∧
    redrawFrames ticks { s with current_display_mode := DISPLAY_MODE_QRCODE }
      = List.replicate ticks.length qrFrame ∧
    redrawFrames ticks { s with current_display_mode := DISPLAY_MODE_BONGO }
      = (List.range ticks.length).map
          (fun i => bongoFrame (if i % 2 = 0 then s.frame else !s.frame)) ∧
    (∀ i : Nat,
      bongoFrame (if i % 2 = 0 then s.frame else !s.frame)
        ≠ bongoFrame (if (i + 1) % 2 = 0 then s.frame else !s.frame) ∧
      bongoFrame (if i % 2 = 0 then s.frame else !s.frame)
        = bongoFrame (if (i + 2) % 2 = 0 then s.frame else !s.frame)) ∧
    (DrawBongoCat s).1.frame = (!s.frame) ∧
    (DrawInfoScreen s).1 = s ∧ (DrawQRCode s).1 = s := by
  refine ⟨redrawFrames_info ticks _ rfl, redrawFrames_qrcode ticks _ rfl,
    redrawFrames_bongo ticks _ rfl, fun i => ?_, rfl, rfl, rfl⟩
  have hi : i % 2 = 0 ∨ i % 2 = 1 := by omega
  rcases hi with hi | hi
  · have h1 : (i + 1) % 2 = 1 := by omega
    have h2 : (i + 2) % 2 = 0 := by omega
    cases hf : s.frame <;> simp [hi, h1, h2, bongoFrame]
  · have h1 : (i + 1) % 2 = 0 := by omega
    have h2 : (i + 2) % 2 = 1 := by omega
    cases hf : s.frame <;> simp [hi, h1, h2, bongoFrame]

/-! ## Start-up -/

/-- C10. In `OLED_Task_Init`, when queue creation fails, "Failed to create display mode
queue" is transmitted, `Error_Handler` halts the system and `osThreadNew` is never
called; when queue creation succeeds and thread creation fails, "Failed to create OLED
display task" is transmitted and `Error_Handler` halts the system. When both succeed the
function returns without transmitting anything. -/
theorem task_init_failures :
    (∀ thread_created : Bool,
      OLED_Task_Init false thread_created =
        (Outcome.halted,
          [Event.osMessageQueueNew 3 false,
           Event.HAL_UART_Transmit "Failed to create display mode queue\r\n",
           Event.Error_Handler]) ∧
      ∀ ok : Bool, Event.osThreadNew ok ∉ (OLED_Task_Init false thread_created).2) ∧
    OLED_Task_Init true false =
      (Outcome.halted,
        [Event.osMessageQueueNew 3 true,
         Event.osThreadNew false,
         Event.HAL_UART_Transmit "Failed to create OLED display task\r\n",
         Event.Error_Handler]) ∧
    OLED_Task_Init true true =
      (Outcome.returned, [Event.osMessageQueueNew 3 true, Event.osThreadNew true]) := by
  refine ⟨fun thread_created => ⟨rfl, fun ok => ?_⟩, rfl, rfl⟩
  simp [OLED_Task_Init, Error_Handler]

/-- C11. Evaluation of the start of `OLED_Display_Task` when the display transport fails
to initialise (`transport_ok = false`): no line is transmitted, `Error_Handler` is not
called, the blank frame is cleared and flushed and control reaches the render loop.
`OLED_GetDisplay` is never `NULL`, so the branch that transmits "Failed to initialize
OLED display" and halts is taken for no outcome of the initialisation. -/
theorem display_task_prologue_ignores_init_failure :
    OLED_Display_Task_prologue false =
      (Outcome.returned,
        [Event.u8g2_Setup_sh1106_i2c_128x64_noname_f,
         Event.u8g2_SetI2CAddress 0x3C,
         Event.u8g2_InitDisplay false,
         Event.u8g2_SetPowerSave 0,
         Event.u8g2_ClearBuffer,
         Event.u8g2_ClearDisplay,
         Event.u8g2_SendBuffer,
         Event.u8g2_SetFont]) ∧
    uartLines (OLED_Display_Task_prologue false).2 = [] ∧
    Event.Error_Handler ∉ (OLED_Display_Task_prologue false).2 ∧
    drawOrFlush (OLED_Display_Task_prologue false).2 =
      [Event.u8g2_ClearBuffer, Event.u8g2_ClearDisplay, Event.u8g2_SendBuffer] ∧
    (∀ transport_ok : Bool,
      (OLED_Display_Task_prologue transport_ok).1 = Outcome.returned ∧
      "Failed to initialize OLED display\r\n"
        ∉ uartLines (OLED_Display_Task_prologue transport_ok).2) := by
  refine ⟨rfl, rfl, by decide, rfl, fun transport_ok => ?_⟩
  cases transport_ok <;> exact ⟨rfl, by decide⟩

/-- C12 (as amended). The lines `HAL_GPIO_EXTI_Callback` transmits, for every pin, level,
tick and state. An accepted edge transmits the line naming the screen it selects
("SW1: Show bongo cat screen", "SW2: Show QR code page"), followed by the failure line
when the queue is full; a pin that is neither SW1 nor SW2 transmits
"Unknown GPIO interrupt (pin=N), ignored!"; a rejected edge on SW1 or SW2 transmits
nothing. So a line is emitted iff the edge is accepted or the pin is unrecognised. -/
theorem exti_callback_diagnostics (p : Pins) (readPin : Nat → GPIO_PinState)
    (now gpio_pin : Nat) (s : State) :
    uartLines (HAL_GPIO_EXTI_Callback p readPin now gpio_pin s).2 =
      (if gpio_pin = p.SW1_Pin then
        if readPin p.SW1_Pin = GPIO_PinState.GPIO_PIN_SET ∧ 50 < sub32 now s.last_sw1_time then
          "SW1: Show bongo cat screen\r\n" ::
            (if s.display_mode_queue.length < 3 then []
             else ["SW1: Failed to send mode to queue\r\n"])
        else []
      else if gpio_pin = p.SW2_Pin then
        if readPin p.SW2_Pin = GPIO_PinState.GPIO_PIN_SET ∧ 50 < sub32 now s.last_sw2_time then
          "SW2: Show QR code page\r\n" ::
            (if s.display_mode_queue.length < 3 then []
             else ["SW2: Failed to send mode to queue\r\n"])
        else []
      else ["Unknown GPIO interrupt (pin=" ++ toString gpio_pin ++ "), ignored!\r\n"]) ∧
    (uartLines (HAL_GPIO_EXTI_Callback p readPin now gpio_pin s).2 ≠ [] ↔
      putsAttempted (HAL_GPIO_EXTI_Callback p readPin now gpio_pin s).2 ≠ [] ∨
      (gpio_pin ≠ p.SW1_Pin ∧ gpio_pin ≠ p.SW2_Pin)) := by
  by_cases h1 : gpio_pin = p.SW1_Pin
  · by_cases c : readPin p.SW1_Pin = GPIO_PinState.GPIO_PIN_SET ∧
        50 < sub32 now s.last_sw1_time
    · by_cases q : s.display_mode_queue.length < 3 <;>
        simp [HAL_GPIO_EXTI_Callback, uartLines, putsAttempted, DEBOUNCE_MS, h1, c, q,
          osMessageQueuePut, OLED_DISPLAY_MODE_QUEUE_SIZE]
    · simp [HAL_GPIO_EXTI_Callback, uartLines, putsAttempted, DEBOUNCE_MS, h1, c]
  · by_cases h2 : gpio_pin = p.SW2_Pin
    · have h12 : ¬ p.SW2_Pin = p.SW1_Pin := h2 ▸ h1
      by_cases c : readPin p.SW2_Pin = GPIO_PinState.GPIO_PIN_SET ∧
          50 < sub32 now s.last_sw2_time
      · by_cases q : s.display_mode_queue.length < 3 <;>
          simp [HAL_GPIO_EXTI_Callback, uartLines, putsAttempted, DEBOUNCE_MS, h2, h12, c, q,
            osMessageQueuePut, OLED_DISPLAY_MODE_QUEUE_SIZE]
      · simp [HAL_GPIO_EXTI_Callback, uartLines, putsAttempted, DEBOUNCE_MS, h2, h12, c]
    · simp [HAL_GPIO_EXTI_Callback, uartLines, putsAttempted, h1, h2]

/-- C12 as stated fails on the code. With `SW1_Pin = 8`, `SW2_Pin = 16` and the boot
state, a call for SW1 whose level reads `GPIO_PIN_RESET`, and a call for a pressed SW1 at
tick 30 (inside the 50 ms window), issue no call at all: no diagnostic line is
transmitted. -/
theorem exti_callback_silent_reject_counterexample :
    (HAL_GPIO_EXTI_Callback ⟨8, 16⟩ (fun _ => GPIO_PinState.GPIO_PIN_RESET) 100 8 boot).2 = [] ∧
    uartLines
      (HAL_GPIO_EXTI_Callback ⟨8, 16⟩ (fun _ => GPIO_PinState.GPIO_PIN_RESET) 100 8 boot).2
      = [] ∧
    (HAL_GPIO_EXTI_Callback ⟨8, 16⟩ (fun _ => GPIO_PinState.GPIO_PIN_SET) 30 8 boot).2 = [] ∧
    uartLines
      (HAL_GPIO_EXTI_Callback ⟨8, 16⟩ (fun _ => GPIO_PinState.GPIO_PIN_SET) 30 8 boot).2
      = [] := by
  refine ⟨?_, ?_, ?_, ?_⟩ <;> decide

/-! ## Tick wraparound -/

theorem sub32_add_mod (last d : Nat) (hl : last < 2 ^ 32) (hd : d < 2 ^ 32) :
    sub32 ((last + d) % 2 ^ 32) last = d := by
  unfold sub32
  rw [Nat.mod_mod, Nat.mod_eq_of_lt hl]
  omega

theorem body_count_send (status : Option Nat) (now : Nat) (s : State) :
    (OLED_Display_Task_body status now s).2.count Event.u8g2_SendBuffer =
      if 200 ≤ sub32 now s.last_update then 1 else 0 := by
  by_cases h : 200 ≤ sub32 now s.last_update <;> cases status <;>
    simp [OLED_Display_Task_body, redraw, OLED_ANIMATION_DELAY_MS, h, dispatch_count_send]

/-- C13. Tick-counter wraparound is harmless. For 32-bit `last` and a true elapsed time
`d < 2^32`, with `now = (last + d) mod 2^32` the difference the code computes is `d`.
Hence, with `last` the stored time: the handler attempts a put for SW1 (SW2) iff the
level is set and `d > 50`, and an iteration of the display task flushes a frame iff
`d >= 200`, whether or not the counter wrapped between `last` and `now`. -/
theorem tick_wraparound_harmless (p : Pins) (hp : p.SW1_Pin ≠ p.SW2_Pin)
    (readPin : Nat → GPIO_PinState) (last d : Nat) (hl : last < 2 ^ 32) (hd : d < 2 ^ 32)
    (status : Option Nat) (s : State) :
    sub32 ((last + d) % 2 ^ 32) last = d ∧
    (putsAttempted (HAL_GPIO_EXTI_Callback p readPin ((last + d) % 2 ^ 32) p.SW1_Pin
        { s with last_sw1_time := last }).2 ≠ [] ↔
      readPin p.SW1_Pin = GPIO_PinState.GPIO_PIN_SET ∧ 50 < d) ∧
    (putsAttempted (HAL_GPIO_EXTI_Callback p readPin ((last + d) % 2 ^ 32) p.SW2_Pin
        { s with last_sw2_time := last }).2 ≠ [] ↔
      readPin p.SW2_Pin = GPIO_PinState.GPIO_PIN_SET ∧ 50 < d) ∧
    (OLED_Display_Task_body status ((last + d) % 2 ^ 32)
        { s with last_update := last }).2.count Event.u8g2_SendBuffer =
      (if 200 ≤ d then 1 else 0) := by
  have hsub := sub32_add_mod last d hl hd
  have hsub2 : sub32 ((last + d) % 4294967296) last = d := by simpa using hsub
  have hp2 : ¬ p.SW2_Pin = p.SW1_Pin := fun h => hp h.symm
  refine ⟨hsub, ?_, ?_, ?_⟩
  · by_cases c : readPin p.SW1_Pin = GPIO_PinState.GPIO_PIN_SET ∧ 50 < d
    · simp [HAL_GPIO_EXTI_Callback, putsAttempted, DEBOUNCE_MS, hsub2, c]
    · simp [HAL_GPIO_EXTI_Callback, putsAttempted, DEBOUNCE_MS, hsub2, c]
  · by_cases c : readPin p.SW2_Pin = GPIO_PinState.GPIO_PIN_SET ∧ 50 < d
    · simp [HAL_GPIO_EXTI_Callback, putsAttempted, DEBOUNCE_MS, hsub2, c, hp2]
    · simp [HAL_GPIO_EXTI_Callback, putsAttempted, DEBOUNCE_MS, hsub2, c, hp2]
  · rw [body_count_send]
    simp only [hsub]

/-- Instance of C13 across a wrap, with `SW1_Pin = 8`, `SW2_Pin = 16`: `last` is 10 ticks
before the counter overflows and 60 ticks have elapsed, so `now = 50`; the code computes
the difference 60. -/
theorem tick_wraparound_harmless_witness :
    (8 : Nat) ≠ 16 ∧ 4294967286 < 2 ^ 32 ∧ 60 < 2 ^ 32 ∧
    (4294967286 + 60) % 2 ^ 32 = 50 ∧
    sub32 ((4294967286 + 60) % 2 ^ 32) 4294967286 = 60 :=
  ⟨by decide, by norm_num, by norm_num, by norm_num,
   (tick_wraparound_harmless ⟨8, 16⟩ (by decide) (fun _ => GPIO_PinState.GPIO_PIN_SET)
      4294967286 60 (by norm_num) (by norm_num) none boot).1⟩

/-! ## The I2C byte callback -/

theorem take_succ_set (l : List Nat) (n b : Nat) (h : n < l.length) :
    (l.set n b).take (n + 1) = l.take n ++ [b] := by
  induction l generalizing n with
  | nil => simp at h
  | cons a l ih =>
    cases n with
    | zero => simp
    | succ n =>
      simp at h
      simp [ih n h]

/-- The send loop, started with `buf_idx + arg_int <= 32`: it advances `buf_idx` by the
number of bytes, appends the bytes to the part of `buffer` already filled, and stores at
the indices `buf_idx, buf_idx + 1, ...` only. -/
theorem byteSendLoop_spec (data : List Nat) (st : I2cStatics) (writes : List Nat)
    (hlen : st.buffer.length = 32) (hfit : st.buf_idx + data.length ≤ 32) :
    (byteSendLoop data st writes).1.buf_idx = st.buf_idx + data.length ∧
    (byteSendLoop data st writes).1.buffer.length = 32 ∧
    (byteSendLoop data st writes).1.buffer.take (st.buf_idx + data.length)
      = st.buffer.take st.buf_idx ++ data ∧
    (byteSendLoop data st writes).2 = writes ++ List.range' st.buf_idx data.length := by
  induction data generalizing st writes with
  | nil => simp [byteSendLoop, hlen]
  | cons b data ih =>
    simp only [List.length_cons] at hfit
    have hidx : st.buf_idx < 32 := by omega
    have hwrap : (st.buf_idx + 1) % 256 = st.buf_idx + 1 := by omega
    obtain ⟨h1, h2, h3, h4⟩ :=
      ih { buffer := st.buffer.set st.buf_idx b, buf_idx := st.buf_idx + 1 }
        (writes ++ [st.buf_idx]) (by simp [hlen]) (by simp only; omega)
    simp only at h1 h3 h4
    simp only [byteSendLoop, List.length_cons, hwrap]
    refine ⟨by rw [h1]; omega, h2, ?_, ?_⟩
    · have e : st.buf_idx + (data.length + 1) = st.buf_idx + 1 + data.length := by omega
      rw [e, h3, take_succ_set _ _ _ (by rw [hlen]; exact hidx)]
      simp
    · rw [h4, List.range'_succ]
      simp

theorem deliver_cons (i2c_address : Nat) (m : U8x8Msg) (ms : List U8x8Msg) (st : I2cStatics) :
    deliver i2c_address (m :: ms) st =
      { statics := (deliver i2c_address ms (u8x8_byte_stm32_i2c i2c_address m st).statics).statics
        rets := (u8x8_byte_stm32_i2c i2c_address m st).ret ::
          (deliver i2c_address ms (u8x8_byte_stm32_i2c i2c_address m st).statics).rets
        writes := (u8x8_byte_stm32_i2c i2c_address m st).writes ++
          (deliver i2c_address ms (u8x8_byte_stm32_i2c i2c_address m st).statics).writes
        transmitted := (u8x8_byte_stm32_i2c i2c_address m st).transmitted ++
          (deliver i2c_address ms (u8x8_byte_stm32_i2c i2c_address m st).statics).transmitted } :=
  rfl

theorem deliver_sends_end (i2c_address : Nat) (ds : List (List Nat)) (st : I2cStatics)
    (hlen : st.buffer.length = 32) (hfit : st.buf_idx + ds.flatten.length ≤ 32) :
    (deliver i2c_address
        (ds.map U8x8Msg.U8X8_MSG_BYTE_SEND ++ [U8x8Msg.U8X8_MSG_BYTE_END_TRANSFER]) st).rets
      = List.replicate (ds.length + 1) 1 ∧
    (deliver i2c_address
        (ds.map U8x8Msg.U8X8_MSG_BYTE_SEND ++ [U8x8Msg.U8X8_MSG_BYTE_END_TRANSFER]) st).writes
      = List.range' st.buf_idx ds.flatten.length ∧
    (deliver i2c_address
        (ds.map U8x8Msg.U8X8_MSG_BYTE_SEND ++ [U8x8Msg.U8X8_MSG_BYTE_END_TRANSFER])
        st).transmitted
      = [(i2c_address <<< 1, st.buffer.take st.buf_idx ++ ds.flatten)] ∧
    (deliver i2c_address
        (ds.map U8x8Msg.U8X8_MSG_BYTE_SEND ++ [U8x8Msg.U8X8_MSG_BYTE_END_TRANSFER])
        st).statics.buf_idx
      = st.buf_idx + ds.flatten.length := by
  induction ds generalizing st with
  | nil => simp [deliver, u8x8_byte_stm32_i2c]
  | cons d ds ih =>
    simp only [List.flatten_cons, List.length_append] at hfit
    obtain ⟨h1, h2, h3, h4⟩ := byteSendLoop_spec d st [] hlen (by omega)
    obtain ⟨i1, i2, i3, i4⟩ := ih (byteSendLoop d st []).1 h2 (by rw [h1]; omega)
    rw [List.map_cons, List.cons_append, deliver_cons]
    simp only [u8x8_byte_stm32_i2c, List.flatten_cons, List.length_append, List.length_cons,
      List.nil_append]
    refine ⟨?_, ?_, ?_, ?_⟩
    · rw [i1]; rfl
    · rw [i2, h4, h1, List.nil_append]
      have := List.range'_append st.buf_idx d.length ds.flatten.length 1
      simp only [Nat.one_mul] at this
      rw [this, Nat.add_comm]
    · rw [i3, h1, h3, List.append_assoc]
    · rw [i4, h1, Nat.add_assoc]

/-- C14. A transfer `START_TRANSFER, BYTE_SEND(d1), ..., BYTE_SEND(dk), END_TRANSFER`
delivered to `u8x8_byte_stm32_i2c`, from any content of the 32-byte buffer and any
`buf_idx`, with `|d1| + ... + |dk| <= 32`: the stores go to the indices
`0, 1, ..., total - 1`, all below 32; `END_TRANSFER` makes the only transmit call, whose
bytes are `d1 ++ ... ++ dk` and whose length is `buf_idx`; every call returns 1.
`BYTE_INIT` and `BYTE_SET_DC` return 1 as well and any other message returns 0. -/
theorem i2c_transfer_within_buffer (i2c_address : Nat) (ds : List (List Nat))
    (st : I2cStatics) (hlen : st.buffer.length = 32) (htot : ds.flatten.length ≤ 32) :
    (∀ i ∈ (deliver i2c_address (U8x8Msg.U8X8_MSG_BYTE_START_TRANSFER ::
        (ds.map U8x8Msg.U8X8_MSG_BYTE_SEND ++ [U8x8Msg.U8X8_MSG_BYTE_END_TRANSFER]))
        st).writes, i < 32) ∧
    (deliver i2c_address (U8x8Msg.U8X8_MSG_BYTE_START_TRANSFER ::
        (ds.map U8x8Msg.U8X8_MSG_BYTE_SEND ++ [U8x8Msg.U8X8_MSG_BYTE_END_TRANSFER]))
        st).writes = List.range ds.flatten.length ∧
    (deliver i2c_address (U8x8Msg.U8X8_MSG_BYTE_START_TRANSFER ::
        (ds.map U8x8Msg.U8X8_MSG_BYTE_SEND ++ [U8x8Msg.U8X8_MSG_BYTE_END_TRANSFER]))
        st).transmitted = [(i2c_address <<< 1, ds.flatten)] ∧
    (deliver i2c_address (U8x8Msg.U8X8_MSG_BYTE_START_TRANSFER ::
        (ds.map U8x8Msg.U8X8_MSG_BYTE_SEND ++ [U8x8Msg.U8X8_MSG_BYTE_END_TRANSFER]))
        st).statics.buf_idx = ds.flatten.length ∧
    (deliver i2c_address (U8x8Msg.U8X8_MSG_BYTE_START_TRANSFER ::
        (ds.map U8x8Msg.U8X8_MSG_BYTE_SEND ++ [U8x8Msg.U8X8_MSG_BYTE_END_TRANSFER]))
        st).rets = List.replicate (ds.length + 2) 1 ∧
    (u8x8_byte_stm32_i2c i2c_address U8x8Msg.U8X8_MSG_BYTE_INIT st).ret = 1 ∧
    (u8x8_byte_stm32_i2c i2c_address U8x8Msg.U8X8_MSG_BYTE_SET_DC st).ret = 1 ∧
    (∀ msg : Nat, (u8x8_byte_stm32_i2c i2c_address (U8x8Msg.other msg) st).ret = 0) := by
  obtain ⟨i1, i2, i3, i4⟩ :=
    deliver_sends_end i2c_address ds { st with buf_idx := 0 } hlen (by simpa using htot)
  have hw : (deliver i2c_address (U8x8Msg.U8X8_MSG_BYTE_START_TRANSFER ::
      (ds.map U8x8Msg.U8X8_MSG_BYTE_SEND ++ [U8x8Msg.U8X8_MSG_BYTE_END_TRANSFER]))
      st).writes = List.range ds.flatten.length := by
    rw [deliver_cons]
    simp only [u8x8_byte_stm32_i2c, List.nil_append]
    rw [i2, List.range_eq_range']
  refine ⟨?_, hw, ?_, ?_, ?_, rfl, rfl, fun _ => rfl⟩
  · intro i hi
    rw [hw, List.mem_range] at hi
    omega
  · rw [deliver_cons]
    simp only [u8x8_byte_stm32_i2c, List.nil_append]
    rw [i3]
    simp
  · rw [deliver_cons]
    simp only [u8x8_byte_stm32_i2c]
    rw [i4]
    simp
  · rw [deliver_cons]
    simp only [u8x8_byte_stm32_i2c]
    rw [i1]
    rfl

/-- Instance of C14: address `0x3C`, the buffer holding stale bytes and `buf_idx = 7`, a
transfer of a control byte followed by three data bytes. The four bytes go out in order
to `DevAddress = 0x78` and every call returns 1. -/
theorem i2c_transfer_within_buffer_witness :
    (List.replicate 32 9).length = 32 ∧ [[64], [1, 2, 3]].flatten.length ≤ 32 ∧
    (deliver 0x3C [U8x8Msg.U8X8_MSG_BYTE_START_TRANSFER, U8x8Msg.U8X8_MSG_BYTE_SEND [64],
        U8x8Msg.U8X8_MSG_BYTE_SEND [1, 2, 3], U8x8Msg.U8X8_MSG_BYTE_END_TRANSFER]
        { buffer := List.replicate 32 9, buf_idx := 7 }).transmitted
      = [(0x78, [64, 1, 2, 3])] :=
  ⟨by decide, by decide,
   (i2c_transfer_within_buffer 0x3C [[64], [1, 2, 3]]
      { buffer := List.replicate 32 9, buf_idx := 7 } (by decide) (by decide)).2.2.1⟩

end OledRtos
